import Mathlib

/-!
# Date utilities of `native/src/dateutils.c`

A shallow embedding of the date parsing, freshness validation, relative-time
formatting and time-window filtering code, followed by theorems about it.

Conventions of the embedding.

* `time_t` is the 64-bit signed count of seconds since the epoch and is
  embedded as `Int`.  The current time, which the C code reads with
  `time(NULL)`, is an explicit argument `now`.
* `int` is 32 bits wide.  The one place where an `int` computation can leave
  that range on ordinary inputs, the product `hours * 3600`, is reduced with
  `wrapInt32` (two's-complement wrap-around, which is what the compiled code
  does; ISO C leaves the overflow undefined).
* A JavaScript number is a `double` and is embedded as `JsNumber`: not a
  number, an infinity, or a finite value `m * 2 ^ e`.  The division
  `js_timestamp / 1000.0` is the IEEE 754 division, rounded to the nearest
  double, ties to even.  The casts `(time_t)` and `(int)` of a double cut off
  the fraction; for a value that does not fit, where ISO C leaves the result
  undefined, they give the smallest value of the target type, as the
  conversion instruction of x86-64 does.
* The doubles that the code makes from `time_t` values (`difftime`, the
  comparisons with 60, 3600, 86400 and 604800, the division by those
  constants followed by the cast to `int`, and `(double)timestamp * 1000.0`)
  are embedded as integers: for second counts below `2 ^ 53 / 1000` in
  magnitude these double operations are exact.
* A C string is the list of its characters without the terminating NUL.
* C truth values returned as `int` (0 or 1) are embedded as `Bool`.
-/

namespace DateUtils

/-! ## Machine integers -/

/-- Value of a C `int` expression after two's-complement reduction to 32 bits. -/
def wrapInt32 (x : Int) : Int :=
  (x + 2147483648) % 4294967296 - 2147483648

/-! ## Broken-down time and `timegm` -/

/-- The fields of `struct tm` that the program writes or reads. -/
structure Tm where
  tm_sec : Int
  tm_min : Int
  tm_hour : Int
  tm_mday : Int
  tm_mon : Int
  tm_year : Int
  tm_wday : Int
deriving DecidableEq, Repr

/-- The value of `struct tm tm = {0};`. -/
def Tm.zero : Tm :=
  { tm_sec := 0, tm_min := 0, tm_hour := 0, tm_mday := 0, tm_mon := 0, tm_year := 0,
    tm_wday := 0 }

/-- Leap-year test of the proleptic Gregorian calendar on a calendar year. -/
def leapyear (year : Int) : Bool :=
  year % 4 == 0 && (year % 100 != 0 || year % 400 == 0)

/-- Days before the first of each month (the libc table `__mon_yday`), month
index `0 .. 11`. -/
def mon_yday (leap : Bool) (mon : Int) : Int :=
  let common : Int :=
    if mon = 0 then 0 else if mon = 1 then 31 else if mon = 2 then 59
    else if mon = 3 then 90 else if mon = 4 then 120 else if mon = 5 then 151
    else if mon = 6 then 181 else if mon = 7 then 212 else if mon = 8 then 243
    else if mon = 9 then 273 else if mon = 10 then 304 else 334
  if leap && decide (2 ≤ mon) then common + 1 else common

/-- Number of leap days in the calendar years `1 .. year`. -/
def leapsThrough (year : Int) : Int :=
  year / 4 - year / 100 + year / 400

/-- Days from 1970-01-01 to the day `mday` of month index `mon` of calendar
year `year`; a month index outside `0 .. 11` is first carried into the year,
as libc does. -/
def daysFromEpoch (year mon mday : Int) : Int :=
  let y := year + mon / 12
  let m := mon % 12
  365 * (y - 1970) + (leapsThrough (y - 1) - leapsThrough 1969)
    + mon_yday (leapyear y) m + (mday - 1)

/-- The libc function `timegm`: seconds since the epoch of a broken-down UTC
time.  Only the six fields below are read; the function is linear in the day,
hour, minute and second fields, which is how libc normalises out-of-range
values. -/
def timegm (tm : Tm) : Int :=
  ((daysFromEpoch (tm.tm_year + 1900) tm.tm_mon tm.tm_mday * 24 + tm.tm_hour) * 60
    + tm.tm_min) * 60 + tm.tm_sec

/-! ## `strptime` -/

/-- The C function `isspace` in the "C" locale. -/
def isspace (c : Char) : Bool :=
  c == ' ' || c == '\t' || c == '\n' || c == '\x0b' || c == '\x0c' || c == '\r'

/-- The test `'0' <= c && c <= '9'`. -/
def isdigit (c : Char) : Bool :=
  decide (48 ≤ c.toNat) && decide (c.toNat ≤ 57)

/-- The C function `tolower` in the "C" locale. -/
def tolower (c : Char) : Char :=
  if 65 ≤ c.toNat ∧ c.toNat ≤ 90 then Char.ofNat (c.toNat + 32) else c

/-- Advance over white space: `while (isspace (*rp)) ++rp;`. -/
def skip_spaces : List Char → List Char
  | [] => []
  | c :: rp => if isspace c then skip_spaces rp else c :: rp

/-- The `do .. while` loop of the libc macro `get_number`, entered with `rp` at
a digit: `do { val *= 10; val += *rp++ - '0'; } while (--n > 0 && val * 10 <= to
&& '0' <= *rp && *rp <= '9');`. -/
def get_number_loop (hi : Int) : Nat → Int → List Char → Int × List Char
  | _, val, [] => (val, [])
  | n, val, c :: rp =>
    let val := val * 10 + ((c.toNat : Int) - 48)
    match rp with
    | [] => (val, rp)
    | d :: _ =>
      if n - 1 > 0 ∧ val * 10 ≤ hi ∧ isdigit d = true then
        get_number_loop hi (n - 1) val rp
      else
        (val, rp)

/-- The libc macro `get_number (from, to, n)`, its bounds named `lo` and `hi`
here: skip white space, read at most `n` digits, fail when there is no digit
or the value is outside `lo .. hi`. -/
def get_number (lo hi : Int) (n : Nat) (rp : List Char) : Option (Int × List Char) :=
  match skip_spaces rp with
  | [] => none
  | c :: rest =>
    if isdigit c = true then
      let r := get_number_loop hi n 0 (c :: rest)
      if r.1 < lo ∨ r.1 > hi then none else some r
    else
      none

/-- The libc macro `match_string`: `name` is a prefix of the input up to
letter case (`strncasecmp`); the result is the input after it. -/
def match_string (name rp : List Char) : Option (List Char) :=
  if (rp.take name.length).map tolower = name.map tolower then
    some (rp.drop name.length)
  else
    none

/-- The pointer test `trp > rp_longest` of the name searches, for two
pointers into the same string: the one with less input left is the greater,
and every pointer is above the initial `rp_longest = NULL`. -/
def ptr_gt (trp : List Char) (rp_longest : Option (List Char)) : Bool :=
  match rp_longest with
  | none => true
  | some longest => decide (trp.length < longest.length)

/-- The search loop of `%b`: every month name, full and abbreviated, is tried
at the same position and the match that consumes most input is kept
(`trp > rp_longest`), the earlier one on a tie.  libc tries the names of the
locale and then the built-in English names; in the "C" locale the two tables
are the same. -/
def match_longest (rp : List Char) :
    List (Int × List Char) → Option (Int × List Char) → Option (Int × List Char)
  | [], best => best
  | (cnt, name) :: names, best =>
    match match_string name rp, best with
    | some trp, none => match_longest rp names (some (cnt, trp))
    | some trp, some (c, longest) =>
      if trp.length < longest.length then
        match_longest rp names (some (cnt, trp))
      else
        match_longest rp names (some (c, longest))
    | none, _ => match_longest rp names best

/-- The full and the abbreviated weekday names of the "C" locale with their
`tm_wday`. -/
def weekday_names : List (Int × List Char × List Char) :=
  [(0, "Sunday".toList, "Sun".toList), (1, "Monday".toList, "Mon".toList),
   (2, "Tuesday".toList, "Tue".toList), (3, "Wednesday".toList, "Wed".toList),
   (4, "Thursday".toList, "Thu".toList), (5, "Friday".toList, "Fri".toList),
   (6, "Saturday".toList, "Sat".toList)]

/-- The step `trp = rp; if (match_string (name, trp) && trp > rp_longest)
{ rp_longest = trp; cnt_longest = cnt; }` of the `%a` loop, which tries a name
on a copy `trp` of the read pointer.  The loop variables `rp_longest` (`none`
for `NULL`) and `cnt_longest` are handed on to the rest of the loop, `next`. -/
def weekday_try {α : Type} (cnt : Int) (name rp : List Char)
    (rp_longest : Option (List Char)) (cnt_longest : Int)
    (next : Option (List Char) → Int → α) : α :=
  match match_string name rp with
  | some trp => if ptr_gt trp rp_longest = true then next (some trp) cnt
    else next rp_longest cnt_longest
  | none => next rp_longest cnt_longest

/-- The second operand of the test on the built-in names,
`(trp = rp, match_string (ab_weekday_name[cnt], rp)) && trp > rp_longest`,
with the body `rp_longest = trp; cnt_longest = cnt;` it guards.  Here
`match_string` is given `rp` itself, so a matching abbreviated name moves the
read pointer past it for the rounds that follow, while `trp` stays at the old
position. -/
def weekday_raw_abbrev {α : Type} (cnt : Int) (abbr rp : List Char)
    (rp_longest : Option (List Char)) (cnt_longest : Int)
    (next : List Char → Option (List Char) → Int → α) : α :=
  match match_string abbr rp with
  | some advanced => if ptr_gt rp rp_longest = true then next advanced (some rp) cnt
    else next advanced rp_longest cnt_longest
  | none => next rp rp_longest cnt_longest

/-- The test on the built-in names of the `%a` loop,
`((trp = rp, match_string (weekday_name[cnt], trp)) && trp > rp_longest)
|| (..abbreviated name..)`, with its body: the second operand is evaluated
only when the first is false. -/
def weekday_raw {α : Type} (cnt : Int) (full abbr rp : List Char)
    (rp_longest : Option (List Char)) (cnt_longest : Int)
    (next : List Char → Option (List Char) → Int → α) : α :=
  match match_string full rp with
  | some trp => if ptr_gt trp rp_longest = true then next rp (some trp) cnt
    else weekday_raw_abbrev cnt abbr rp rp_longest cnt_longest next
  | none => weekday_raw_abbrev cnt abbr rp rp_longest cnt_longest next

/-- The `for (cnt = 0; cnt < 7; ++cnt)` loop of `%a` over the weekdays still to
try, with the loop variables `rp`, `rp_longest` and `cnt_longest`.  Each round
tries the full and the abbreviated name of the locale and then the built-in
names, which in the "C" locale are the same names.  After the last round the
result is `rp = rp_longest` with `tm_wday = cnt_longest`, or no match when
`rp_longest` is still `NULL`. -/
def weekday_loop : List (Int × List Char × List Char) → List Char → Option (List Char) →
    Int → Option (Int × List Char)
  | [], _, rp_longest, cnt_longest => rp_longest.map fun longest => (cnt_longest, longest)
  | (cnt, full, abbr) :: entries, rp, rp_longest, cnt_longest =>
    weekday_try cnt full rp rp_longest cnt_longest fun rp_longest cnt_longest =>
    weekday_try cnt abbr rp rp_longest cnt_longest fun rp_longest cnt_longest =>
    weekday_raw cnt full abbr rp rp_longest cnt_longest fun rp rp_longest cnt_longest =>
    weekday_loop entries rp rp_longest cnt_longest

/-- The search of `%a`, started with `rp_longest = NULL` and
`cnt_longest = -1`. -/
def weekday_search (rp : List Char) : Option (Int × List Char) :=
  weekday_loop weekday_names rp none (-1)

/-- Full and abbreviated month names of the "C" locale with `tm_mon`. -/
def month_names : List (Int × List Char) :=
  [(0, "January".toList), (0, "Jan".toList), (1, "February".toList), (1, "Feb".toList),
   (2, "March".toList), (2, "Mar".toList), (3, "April".toList), (3, "Apr".toList),
   (4, "May".toList), (4, "May".toList), (5, "June".toList), (5, "Jun".toList),
   (6, "July".toList), (6, "Jul".toList), (7, "August".toList), (7, "Aug".toList),
   (8, "September".toList), (8, "Sep".toList), (9, "October".toList), (9, "Oct".toList),
   (10, "November".toList), (10, "Nov".toList), (11, "December".toList), (11, "Dec".toList)]

/-- One conversion specification of `strptime`, for the conversions the
program's formats use (`%a %b %d %H %m %M %S %Y` and their synonyms): the
input left and the `struct tm` after the field is stored, or `none` when the
input does not match (in which case nothing is stored).  Other conversions
are not embedded and count as no match. -/
def strptime_conv (spec : Char) (rp : List Char) (tm : Tm) : Option (List Char × Tm) :=
  if spec = 'a' ∨ spec = 'A' then
    (weekday_search rp).map fun r => (r.2, { tm with tm_wday := r.1 })
  else if spec = 'b' ∨ spec = 'B' ∨ spec = 'h' then
    (match_longest rp month_names none).map fun r => (r.2, { tm with tm_mon := r.1 })
  else if spec = 'd' ∨ spec = 'e' then
    (get_number 1 31 2 rp).map fun r => (r.2, { tm with tm_mday := r.1 })
  else if spec = 'H' then
    (get_number 0 23 2 rp).map fun r => (r.2, { tm with tm_hour := r.1 })
  else if spec = 'm' then
    (get_number 1 12 2 rp).map fun r => (r.2, { tm with tm_mon := r.1 - 1 })
  else if spec = 'M' then
    (get_number 0 59 2 rp).map fun r => (r.2, { tm with tm_min := r.1 })
  else if spec = 'S' then
    (get_number 0 61 2 rp).map fun r => (r.2, { tm with tm_sec := r.1 })
  else if spec = 'Y' then
    (get_number 0 9999 4 rp).map fun r => (r.2, { tm with tm_year := r.1 - 1900 })
  else
    none

/-- The libc function `strptime (rp, fmt, &tm)`: the returned pointer (`none`
for `NULL`, otherwise the unread rest of the input) and the contents of `tm`
afterwards.  Fields are stored as each conversion succeeds, so after a failed
call `tm` keeps what the conversions before the failure stored.  White space
in the format matches any amount of white space in the input, any other
character but `%` must be matched exactly.  The recomputation of `tm_wday`
and `tm_yday` after a successful call is left out: `timegm` does not read
them. -/
def strptime : List Char → List Char → Tm → Option (List Char) × Tm
  | rp, [], tm => (some rp, tm)
  | rp, f :: fmt, tm =>
    if isspace f = true then
      strptime (skip_spaces rp) fmt tm
    else if f ≠ '%' then
      match rp with
      | [] => (none, tm)
      | r :: rp => if f = r then strptime rp fmt tm else (none, tm)
    else
      match fmt with
      | [] => (none, tm)
      | spec :: fmt =>
        match strptime_conv spec rp tm with
        | none => (none, tm)
        | some (rp, tm) => strptime rp fmt tm

/-! ## `parse_date_string` -/

/-- The four `strptime` attempts of `parse_date_string` on a non-empty string:
the final value of `result` and of `tm`.  All attempts write to the same
`tm`, which is cleared once, before the first. -/
def parse_attempts (date_str : List Char) : Option (List Char) × Tm :=
  let tm := Tm.zero
  let r := strptime date_str "%Y-%m-%dT%H:%M:%S".toList tm
  let r := if r.1.isNone then strptime date_str "%a, %d %b %Y %H:%M:%S".toList r.2 else r
  let r := if r.1.isNone then strptime date_str "%Y-%m-%d %H:%M:%S".toList r.2 else r
  let r := if r.1.isNone then strptime date_str "%Y-%m-%d".toList r.2 else r
  r

/-- The function `parse_date_string`; `none` is the null pointer. -/
def parse_date_string (date_str : Option (List Char)) : Int :=
  match date_str with
  | none => -1
  | some s =>
    if s.length = 0 then
      -1
    else
      let r := parse_attempts s
      if r.1.isNone then -1 else timegm r.2

/-! ## `is_valid_article_date` -/

/-- The function `is_valid_article_date`, with the clock reading `now`. -/
def is_valid_article_date (now timestamp : Int) : Bool :=
  if timestamp == -1 then
    false
  else
    let one_week_ago := now - (7 * 24 * 60 * 60)
    let one_hour_future := now + (60 * 60)
    decide (timestamp ≥ one_week_ago) && decide (timestamp ≤ one_hour_future)

/-! ## `format_relative_time` -/

/-- The branch of `format_relative_time` that produced the output. -/
inductive RelativeBucket where
  | justNow
  | minutes
  | hours
  | days
  | absoluteDate
deriving DecidableEq, Repr

/-- Position of a bucket in the order just-now, minutes, hours, days,
absolute-date. -/
def RelativeBucket.rank : RelativeBucket → Nat
  | .justNow => 0
  | .minutes => 1
  | .hours => 2
  | .days => 3
  | .absoluteDate => 4

/-- The libc function `difftime` on two `time_t` values. -/
def difftime (time1 time0 : Int) : Int :=
  time1 - time0

/-- The body of `format_relative_time`: the text written to `output`, paired
with the branch that wrote it.  `strftime_local timestamp` stands for
`strftime(.., "%m/%d/%Y", localtime(&timestamp))`, which depends on the time
zone of the process.  The cast `(int)(diff_seconds / 60)` truncates, hence
`Int.tdiv`.  The output buffer holds 256 bytes, so no text is cut. -/
def format_relative_time_branch (strftime_local : Int → String) (now timestamp : Int) :
    RelativeBucket × String :=
  let diff_seconds := difftime now timestamp
  if diff_seconds < 60 then
    (.justNow, "Just now")
  else if diff_seconds < 3600 then
    let minutes := diff_seconds.tdiv 60
    (.minutes, toString minutes ++ " minute" ++ (if minutes > 1 then "s" else "") ++ " ago")
  else if diff_seconds < 86400 then
    let hours := diff_seconds.tdiv 3600
    (.hours, toString hours ++ " hour" ++ (if hours > 1 then "s" else "") ++ " ago")
  else if diff_seconds < 604800 then
    let days := diff_seconds.tdiv 86400
    (.days, toString days ++ " day" ++ (if days > 1 then "s" else "") ++ " ago")
  else
    (.absoluteDate, strftime_local timestamp)

/-- The function `format_relative_time`: the text left in `output`. -/
def format_relative_time (strftime_local : Int → String) (now timestamp : Int) : String :=
  (format_relative_time_branch strftime_local now timestamp).2

/-- The branch `format_relative_time` takes. -/
def chosenBucket (now timestamp : Int) : RelativeBucket :=
  (format_relative_time_branch (fun _ => "") now timestamp).1

/-! ## JavaScript numbers -/

/-- A JavaScript number, that is an IEEE 754 double: not a number, an
infinity, or the finite value `m * 2 ^ e`.  A double has `|m| < 2 ^ 53` and
`-1074 ≤ e ≤ 971`; the operations below are defined for every `m` and `e`. -/
inductive JsNumber where
  | nan
  | inf (negative : Bool)
  | finite (m : Int) (e : Int)
deriving DecidableEq, Repr

/-- Auxiliary recursion of `log2_floor`; `fuel` bounds the number of halvings. -/
def log2_floor_fuel : Nat → Nat → Nat
  | 0, _ => 0
  | fuel + 1, n => if n < 2 then 0 else log2_floor_fuel fuel (n / 2) + 1

/-- The position of the leading bit of `n`: the largest `k` with `2 ^ k ≤ n`
(and 0 for `n = 0`).  Fewer than `n` halvings are ever needed. -/
def log2_floor (n : Nat) : Nat :=
  log2_floor_fuel n n

/-- The fraction `n / d` rounded to the nearest integer, ties to even. -/
def round_half_even (n d : Nat) : Nat :=
  if 2 * (n % d) < d then n / d
  else if d < 2 * (n % d) then n / d + 1
  else if n / d % 2 = 0 then n / d
  else n / d + 1

/-- The double nearest to the fraction `n / d` taken with the given sign
(IEEE 754 round to nearest, ties to even): with `2 ^ k ≤ n / d < 2 ^ (k + 1)`
the result is a multiple of `2 ^ (k - 52)`, or of `2 ^ (-1074)` in the
subnormal range, and an infinity when it is too large for a double. -/
def round_to_double (negative : Bool) (n d : Nat) : JsNumber :=
  if n = 0 then
    .finite 0 0
  else
    let k0 : Int := (log2_floor n : Int) - (log2_floor d : Int)
    let below : Bool :=
      if 0 ≤ k0 then decide (n < d * 2 ^ k0.toNat) else decide (n * 2 ^ (-k0).toNat < d)
    let k : Int := if below then k0 - 1 else k0
    let p : Int := max (k - 52) (-1074)
    let mant : Nat :=
      if 0 ≤ p then round_half_even n (d * 2 ^ p.toNat)
      else round_half_even (n * 2 ^ (-p).toNat) d
    if 1024 ≤ (log2_floor mant : Int) + p then .inf negative
    else .finite (if negative then -(mant : Int) else (mant : Int)) p

/-- The double expression `x / 1000.0`. -/
def double_div_1000 : JsNumber → JsNumber
  | .nan => .nan
  | .inf negative => .inf negative
  | .finite m e =>
    if 0 ≤ e then round_to_double (decide (m < 0)) (m.natAbs * 2 ^ e.toNat) 1000
    else round_to_double (decide (m < 0)) m.natAbs (1000 * 2 ^ (-e).toNat)

/-- The integer part of a finite double (rounding toward zero); `none` for an
infinity and for not a number. -/
def double_trunc : JsNumber → Option Int
  | .finite m e => some (if 0 ≤ e then m * 2 ^ e.toNat else m.tdiv (2 ^ (-e).toNat))
  | _ => none

/-- The cast `(time_t)x` of a double to the 64-bit `time_t`: the integer part
when it fits, and otherwise `-2 ^ 63`, the result of the x86-64 conversion
(ISO C leaves that case undefined). -/
def double_to_time_t (x : JsNumber) : Int :=
  match double_trunc x with
  | some t =>
    if -9223372036854775808 ≤ t ∧ t ≤ 9223372036854775807 then t
    else -9223372036854775808
  | none => -9223372036854775808

/-- The cast `(int)x` of a double to the 32-bit `int`: the integer part when it
fits, and otherwise `-2 ^ 31`, the result of the x86-64 conversion (ISO C
leaves that case undefined). -/
def double_to_int (x : JsNumber) : Int :=
  match double_trunc x with
  | some t => if -2147483648 ≤ t ∧ t ≤ 2147483647 then t else -2147483648
  | none => -2147483648

/-! ## `is_within_time_window` and `FilterByTimeWindow` -/

/-- The function `is_within_time_window`, with the clock reading `now`.  The
product `hours * 3600` is an `int` computation. -/
def is_within_time_window (now timestamp hours : Int) : Bool :=
  let cutoff := now - wrapInt32 (hours * 3600)
  decide (timestamp ≥ cutoff)

/-- A JavaScript value as far as the program distinguishes them: a number, a
string, or anything else. -/
inductive JsValue where
  | number (v : JsNumber)
  | string (s : List Char)
  | other
deriving DecidableEq, Repr

/-- The `for` loop of `FilterByTimeWindow`: `i` is the index of the head of the
remaining elements and `result` the indices stored so far. -/
def FilterByTimeWindow_loop (now hours : Int) : List JsValue → Nat → List Nat → List Nat
  | [], _, result => result
  | .number js_timestamp :: rest, i, result =>
    let timestamp := double_to_time_t (double_div_1000 js_timestamp)
    if is_within_time_window now timestamp hours then
      FilterByTimeWindow_loop now hours rest (i + 1) (result ++ [i])
    else
      FilterByTimeWindow_loop now hours rest (i + 1) result
  | _ :: rest, i, result => FilterByTimeWindow_loop now hours rest (i + 1) result

/-- The function `FilterByTimeWindow` called with an array `timestamps_array`
and a number `hours_double`. -/
def FilterByTimeWindow (now : Int) (timestamps_array : List JsValue)
    (hours_double : JsNumber) : List Nat :=
  let hours := double_to_int hours_double
  FilterByTimeWindow_loop now hours timestamps_array 0 []

/-! ## `ParseRSSDate` -/

/-- What `ParseRSSDate` returns to JavaScript: `null` or a `Date` holding a
number of milliseconds since the epoch. -/
inductive JsResult where
  | null
  | date (ms : Int)
deriving DecidableEq, Repr

/-- The host call `napi_get_value_string_utf8 (.., buf, bufsize, ..)`: the
string is copied into the buffer up to `bufsize - 1` characters. -/
def napi_get_value_string_utf8 (s : List Char) (bufsize : Nat) : List Char :=
  s.take (bufsize - 1)

/-- The C string held by a zero-filled buffer into which `buf` was copied: the
characters before the first NUL. -/
def c_str (buf : List Char) : List Char :=
  buf.takeWhile fun c => c ≠ Char.ofNat 0

/-- The text extracted from one argument of `ParseRSSDate` into its 256-byte
buffer: empty unless the argument was passed and is a string. -/
def extract_date (arg : Option JsValue) : List Char :=
  match arg with
  | some (.string s) => c_str (napi_get_value_string_utf8 s 256)
  | _ => []

/-- The function `ParseRSSDate` called with the arguments `args`, with the
clock reading `now`. -/
def ParseRSSDate (now : Int) (args : List JsValue) : JsResult :=
  let pub_date := extract_date args[0]?
  let iso_date := extract_date args[1]?
  let date_to_parse := if pub_date.length > 0 then pub_date else iso_date
  if date_to_parse.length = 0 then
    .null
  else
    let timestamp := parse_date_string (some date_to_parse)
    if !is_valid_article_date now timestamp then
      .null
    else
      .date (timestamp * 1000)

/-! ## Definitions used to state the properties

The definitions below are not part of the program.  They name the branch test
of the filter loop and put the words of the specification into terms: the
chosen text of `parseRSSDate`, the count and unit noun of a relative time, the
four textual layouts of a wall-clock moment, and the seconds since the epoch
of such a moment counted day by day. -/

/-- The test the loop of `FilterByTimeWindow` applies to one element. -/
def elementPasses (now hours : Int) : JsValue → Bool
  | .number js_timestamp =>
    is_within_time_window now (double_to_time_t (double_div_1000 js_timestamp)) hours
  | _ => false

/-- The text of an argument of `parseRSSDate` up to its first NUL character;
empty when the argument is absent or is not a string. -/
def textBeforeNul (arg : Option JsValue) : List Char :=
  match arg with
  | some (.string s) => s.takeWhile fun c => c ≠ Char.ofNat 0
  | _ => []

/-- The text `parseRSSDate` works on, in the words of the amended
specification: the primary text up to its first NUL when that is not empty,
and the fallback text up to its first NUL otherwise. -/
def chosenText (args : List JsValue) : List Char :=
  if textBeforeNul args[0]? ≠ [] then textBeforeNul args[0]? else textBeforeNul args[1]?

/-- The count `format_relative_time` prints for an elapsed time in the
minutes, hours or days bucket, in the words of the specification. -/
def printedCount (elapsed : Int) : Int :=
  if elapsed < 3600 then elapsed / 60
  else if elapsed < 86400 then elapsed / 3600
  else elapsed / 86400

/-- The unit noun of the bucket of an elapsed time, in the words of the
specification. -/
def unitNoun (elapsed : Int) : String :=
  if elapsed < 3600 then "minute"
  else if elapsed < 86400 then "hour"
  else "day"

/-- The decimal digit character of `d`, for `d` below ten. -/
def digitChar (d : Nat) : Char :=
  Char.ofNat (48 + d)

/-- A number below 100 written with two digits. -/
def pad2 (v : Nat) : List Char :=
  [digitChar (v / 10), digitChar (v % 10)]

/-- A number below 10000 written with four digits. -/
def pad4 (v : Nat) : List Char :=
  [digitChar (v / 1000), digitChar (v / 100 % 10), digitChar (v / 10 % 10), digitChar (v % 10)]

/-- The bare date text `YYYY-MM-DD`. -/
def dateText (y m d : Nat) : List Char :=
  pad4 y ++ '-' :: (pad2 m ++ '-' :: pad2 d)

/-- The time of day `HH:MM:SS`. -/
def timeText (h mi s : Nat) : List Char :=
  pad2 h ++ ':' :: (pad2 mi ++ ':' :: pad2 s)

/-- The ISO text `YYYY-MM-DDTHH:MM:SS`. -/
def isoText (y m d h mi s : Nat) : List Char :=
  dateText y m d ++ 'T' :: timeText h mi s

/-- The simple text `YYYY-MM-DD HH:MM:SS`. -/
def simpleText (y m d h mi s : Nat) : List Char :=
  dateText y m d ++ ' ' :: timeText h mi s

/-- The abbreviated name of weekday `w`, Sunday being 0. -/
def weekdayAbbrev (w : Nat) : List Char :=
  match w with
  | 0 => "Sun".toList
  | 1 => "Mon".toList
  | 2 => "Tue".toList
  | 3 => "Wed".toList
  | 4 => "Thu".toList
  | 5 => "Fri".toList
  | _ => "Sat".toList

/-- The abbreviated name of month `m`, January being 1. -/
def monthAbbrev (m : Nat) : List Char :=
  match m with
  | 1 => "Jan".toList
  | 2 => "Feb".toList
  | 3 => "Mar".toList
  | 4 => "Apr".toList
  | 5 => "May".toList
  | 6 => "Jun".toList
  | 7 => "Jul".toList
  | 8 => "Aug".toList
  | 9 => "Sep".toList
  | 10 => "Oct".toList
  | 11 => "Nov".toList
  | _ => "Dec".toList

/-- The RFC-2822 style text `Wkd, DD Mon YYYY HH:MM:SS`. -/
def rfcText (w y m d h mi s : Nat) : List Char :=
  weekdayAbbrev w ++ ',' :: ' ' :: (pad2 d ++ ' ' :: (monthAbbrev m ++ ' ' :: (pad4 y
    ++ ' ' :: timeText h mi s)))

/-- A `struct tm` with the date fields set as `%Y`, `%m` and `%d` store them. -/
def withDate (tm : Tm) (y m d : Nat) : Tm :=
  { tm with tm_year := (y : Int) - 1900, tm_mon := (m : Int) - 1, tm_mday := (d : Int) }

/-- A `struct tm` with the time fields set as `%H`, `%M` and `%S` store them. -/
def withTime (tm : Tm) (h mi s : Nat) : Tm :=
  { tm with tm_hour := (h : Int), tm_min := (mi : Int), tm_sec := (s : Int) }

/-- The Gregorian leap-year rule: every fourth year, except the centuries that
are not multiples of 400. -/
def isLeapYear (y : Nat) : Bool :=
  (y % 4 == 0 && y % 100 != 0) || y % 400 == 0

/-- Length of a calendar year in days. -/
def daysInYear (y : Nat) : Nat :=
  if isLeapYear y then 366 else 365

/-- Length of month `m` (1 to 12) of year `y` in days. -/
def daysInMonth (y m : Nat) : Nat :=
  if m = 2 then (if isLeapYear y then 29 else 28)
  else if m = 4 ∨ m = 6 ∨ m = 9 ∨ m = 11 then 30
  else 31

/-- Days in the years `0 .. y - 1`. -/
def daysBeforeYear : Nat → Nat
  | 0 => 0
  | y + 1 => daysBeforeYear y + daysInYear y

/-- Days in the months `1 .. m - 1` of year `y`. -/
def daysBeforeMonth (y : Nat) : Nat → Nat
  | 0 => 0
  | 1 => 0
  | m + 2 => daysBeforeMonth y (m + 1) + daysInMonth y (m + 1)

/-- Seconds from 1970-01-01 00:00:00 UTC to the given UTC wall-clock moment,
counted day by day: the days of the whole years and months gone by, the days
of the month gone by, then hours, minutes and seconds. -/
def utcEpochSeconds (y m d h mi s : Nat) : Int :=
  ((((daysBeforeYear y : Int) - (daysBeforeYear 1970 : Int) + (daysBeforeMonth y m : Int)
    + ((d : Int) - 1)) * 24 + (h : Int)) * 60 + (mi : Int)) * 60 + (s : Int)

/-! ## Properties of the freshness validator -/

/-- C1 (amended): for every current time `now` and every instant `t` other
than the sentinel `-1`, `is_valid_article_date` accepts `t` if and only if
`now - 604800 ≤ t ≤ now + 3600`, both bounds inclusive. -/
theorem is_valid_article_date_iff_window (now t : Int) (ht : t ≠ -1) :
    is_valid_article_date now t = true ↔ now - 604800 ≤ t ∧ t ≤ now + 3600 := by
  unfold is_valid_article_date
  have h : (t == -1) = false := by simpa using ht
  simp only [h, Bool.false_eq_true, if_false, Bool.and_eq_true, decide_eq_true_eq]
  constructor <;> intro ⟨h1, h2⟩ <;> constructor <;> omega

/-- Witness of C1 (amended): at `now = 1000000` the instant `999000` lies in
the window and is accepted. -/
theorem is_valid_article_date_iff_window_witness :
    (999000 : Int) ≠ -1 ∧
      (is_valid_article_date 1000000 999000 = true ↔
        (1000000 : Int) - 604800 ≤ 999000 ∧ (999000 : Int) ≤ 1000000 + 3600) :=
  ⟨by decide, is_valid_article_date_iff_window 1000000 999000 (by decide)⟩

/-- C1 as stated fails: the text `1969-12-31T23:59:59` matches the first
pattern and parses to the instant `-1`, which at `now = 0` lies inside the
window `[now - 604800, now + 3600]` and is rejected all the same. -/
theorem is_valid_article_date_rejects_parsed_instant :
    ¬ ∀ (now t : Int),
        (∃ s : List Char, s ≠ [] ∧ (parse_attempts s).1.isSome = true ∧
          parse_date_string (some s) = t) →
        (is_valid_article_date now t = true ↔ now - 604800 ≤ t ∧ t ≤ now + 3600) := by
  intro h
  have h1 := h 0 (-1) ⟨"1969-12-31T23:59:59".toList, by decide, by decide, by decide⟩
  exact absurd (h1.mpr (by decide)) (by decide)

/-! ## Properties of the relative-time formatter -/

theorem chosenBucket_eq (f : Int → String) (now timestamp : Int) :
    (format_relative_time_branch f now timestamp).1 = chosenBucket now timestamp := by
  unfold chosenBucket format_relative_time_branch
  simp only []
  split_ifs <;> rfl

theorem tdiv_eq_div_of_nonneg (a b : Int) (ha : 0 ≤ a) (hb : 0 ≤ b) : a.tdiv b = a / b := by
  rw [Int.tdiv_eq_ediv ha hb]

theorem count_text_singular (n : Int) (unit : String) (h : ¬ n > 1) :
    toString n ++ unit ++ (if n > 1 then "s" else "") ++ " ago"
      = toString n ++ (unit ++ " ago") := by
  rw [if_neg h, String.append_empty, String.append_assoc]

theorem count_text_plural (n : Int) (unit : String) (h : n > 1) :
    toString n ++ unit ++ (if n > 1 then "s" else "") ++ " ago"
      = toString n ++ (unit ++ "s ago") := by
  rw [if_pos h, String.append_assoc, String.append_assoc]
  rfl

theorem branch_justNow (f : Int → String) (now ts : Int) (h : now - ts < 60) :
    format_relative_time_branch f now ts = (.justNow, "Just now") := by
  unfold format_relative_time_branch difftime
  simp only [h, if_true]

theorem branch_minutes (f : Int → String) (now ts : Int) (h1 : 60 ≤ now - ts)
    (h2 : now - ts < 3600) :
    format_relative_time_branch f now ts
      = (.minutes, toString ((now - ts) / 60) ++ " minute"
          ++ (if (now - ts) / 60 > 1 then "s" else "") ++ " ago") := by
  unfold format_relative_time_branch difftime
  have h0 : ¬ now - ts < 60 := by omega
  simp only [h0, h2, if_true, if_false]
  rw [tdiv_eq_div_of_nonneg _ _ (by omega) (by omega)]

theorem branch_hours (f : Int → String) (now ts : Int) (h1 : 3600 ≤ now - ts)
    (h2 : now - ts < 86400) :
    format_relative_time_branch f now ts
      = (.hours, toString ((now - ts) / 3600) ++ " hour"
          ++ (if (now - ts) / 3600 > 1 then "s" else "") ++ " ago") := by
  unfold format_relative_time_branch difftime
  have h0 : ¬ now - ts < 60 := by omega
  have h3 : ¬ now - ts < 3600 := by omega
  simp only [h0, h3, h2, if_true, if_false]
  rw [tdiv_eq_div_of_nonneg _ _ (by omega) (by omega)]

theorem branch_days (f : Int → String) (now ts : Int) (h1 : 86400 ≤ now - ts)
    (h2 : now - ts < 604800) :
    format_relative_time_branch f now ts
      = (.days, toString ((now - ts) / 86400) ++ " day"
          ++ (if (now - ts) / 86400 > 1 then "s" else "") ++ " ago") := by
  unfold format_relative_time_branch difftime
  have h0 : ¬ now - ts < 60 := by omega
  have h3 : ¬ now - ts < 3600 := by omega
  have h4 : ¬ now - ts < 86400 := by omega
  simp only [h0, h3, h4, h2, if_true, if_false]
  rw [tdiv_eq_div_of_nonneg _ _ (by omega) (by omega)]

theorem branch_absolute (f : Int → String) (now ts : Int) (h1 : 604800 ≤ now - ts) :
    format_relative_time_branch f now ts = (.absoluteDate, f ts) := by
  unfold format_relative_time_branch difftime
  have h0 : ¬ now - ts < 60 := by omega
  have h3 : ¬ now - ts < 3600 := by omega
  have h4 : ¬ now - ts < 86400 := by omega
  have h5 : ¬ now - ts < 604800 := by omega
  simp only [h0, h3, h4, h5, if_false]

theorem count_text_cases (n : Int) (unit : String) :
    toString n ++ unit ++ (if n > 1 then "s" else "") ++ " ago" = toString n ++ (unit ++ " ago")
      ∨ toString n ++ unit ++ (if n > 1 then "s" else "") ++ " ago"
          = toString n ++ (unit ++ "s ago") := by
  by_cases h : n > 1
  · exact Or.inr (count_text_plural n unit h)
  · exact Or.inl (count_text_singular n unit h)

/-- C3: with `elapsed = now - instant`, `format_relative_time` writes
"Just now" when `elapsed < 60` (negative values included); the floor of
`elapsed / 60` followed by " minute ago" or " minutes ago" when
`60 ≤ elapsed < 3600`; the floor of `elapsed / 3600` followed by " hour ago" or
" hours ago" when `3600 ≤ elapsed < 86400`; the floor of `elapsed / 86400`
followed by " day ago" or " days ago" when `86400 ≤ elapsed < 604800`; and the
absolute-date branch is taken exactly when `elapsed ≥ 604800`. -/
theorem format_relative_time_buckets (strftime_local : Int → String) (now instant : Int) :
    (now - instant < 60 →
        chosenBucket now instant = .justNow ∧
        format_relative_time strftime_local now instant = "Just now") ∧
    (60 ≤ now - instant → now - instant < 3600 →
        chosenBucket now instant = .minutes ∧
        (format_relative_time strftime_local now instant
            = toString ((now - instant) / 60) ++ " minute ago" ∨
          format_relative_time strftime_local now instant
            = toString ((now - instant) / 60) ++ " minutes ago")) ∧
    (3600 ≤ now - instant → now - instant < 86400 →
        chosenBucket now instant = .hours ∧
        (format_relative_time strftime_local now instant
            = toString ((now - instant) / 3600) ++ " hour ago" ∨
          format_relative_time strftime_local now instant
            = toString ((now - instant) / 3600) ++ " hours ago")) ∧
    (86400 ≤ now - instant → now - instant < 604800 →
        chosenBucket now instant = .days ∧
        (format_relative_time strftime_local now instant
            = toString ((now - instant) / 86400) ++ " day ago" ∨
          format_relative_time strftime_local now instant
            = toString ((now - instant) / 86400) ++ " days ago")) ∧
    (604800 ≤ now - instant →
        format_relative_time strftime_local now instant = strftime_local instant) ∧
    (chosenBucket now instant = .absoluteDate ↔ 604800 ≤ now - instant) := by
  refine ⟨?_, ?_, ?_, ?_, ?_, ?_⟩
  · intro h
    rw [← chosenBucket_eq strftime_local]
    unfold format_relative_time
    rw [branch_justNow strftime_local now instant h]
    exact ⟨rfl, rfl⟩
  · intro h1 h2
    rw [← chosenBucket_eq strftime_local]
    unfold format_relative_time
    rw [branch_minutes strftime_local now instant h1 h2]
    exact ⟨rfl, count_text_cases _ " minute"⟩
  · intro h1 h2
    rw [← chosenBucket_eq strftime_local]
    unfold format_relative_time
    rw [branch_hours strftime_local now instant h1 h2]
    exact ⟨rfl, count_text_cases _ " hour"⟩
  · intro h1 h2
    rw [← chosenBucket_eq strftime_local]
    unfold format_relative_time
    rw [branch_days strftime_local now instant h1 h2]
    exact ⟨rfl, count_text_cases _ " day"⟩
  · intro h
    unfold format_relative_time
    rw [branch_absolute strftime_local now instant h]
  · rw [← chosenBucket_eq strftime_local]
    constructor
    · intro hb
      by_contra hlt
      by_cases h1 : now - instant < 60
      · rw [branch_justNow strftime_local now instant h1] at hb
        simp at hb
      · by_cases h2 : now - instant < 3600
        · rw [branch_minutes strftime_local now instant (by omega) h2] at hb
          simp at hb
        · by_cases h3 : now - instant < 86400
          · rw [branch_hours strftime_local now instant (by omega) h3] at hb
            simp at hb
          · rw [branch_days strftime_local now instant (by omega) (by omega)] at hb
            simp at hb
    · intro h
      rw [branch_absolute strftime_local now instant h]

/-- Witness of C3: elapsed 30 gives "Just now", elapsed 90 gives
"1 minute ago" and elapsed 7200 gives "2 hours ago". -/
theorem format_relative_time_buckets_witness :
    format_relative_time (fun _ => "") 1000030 1000000 = "Just now" ∧
    format_relative_time (fun _ => "") 1000090 1000000 = "1 minute ago" ∧
    format_relative_time (fun _ => "") 1007200 1000000 = "2 hours ago" := by
  refine ⟨?_, ?_, ?_⟩
  · exact ((format_relative_time_buckets (fun _ => "") 1000030 1000000).1 (by decide)).2
  · have h := ((format_relative_time_buckets (fun _ => "") 1000090 1000000).2.1
      (by decide) (by decide)).2
    rcases h with h | h
    · exact h
    · exact absurd h (by decide)
  · have h := ((format_relative_time_buckets (fun _ => "") 1007200 1000000).2.2.1
      (by decide) (by decide)).2
    rcases h with h | h
    · exact absurd h (by decide)
    · exact h

theorem count_text_by_one (n : Int) (unit : String) (hn : 1 ≤ n) :
    toString n ++ (" " ++ unit) ++ (if n > 1 then "s" else "") ++ " ago"
      = toString n ++ " " ++ unit ++ (if n = 1 then "" else "s") ++ " ago" := by
  rw [← String.append_assoc]
  by_cases h : n = 1
  · have h1 : ¬ n > 1 := by omega
    rw [if_neg h1, if_pos h]
  · have h1 : n > 1 := by omega
    rw [if_pos h1, if_neg h]

/-- C4: for every elapsed time with `60 ≤ elapsed < 604800`, the text is the
printed count `N`, a space, the unit noun of the bucket, nothing when `N = 1`
and an "s" for every other `N`, and " ago": the noun is singular exactly when
`N = 1`.  The count is at least 1 in this range, so no text with the count 0
is ever written. -/
theorem format_relative_time_plural (strftime_local : Int → String) (now instant : Int)
    (h1 : 60 ≤ now - instant) (h2 : now - instant < 604800) :
    format_relative_time strftime_local now instant
      = toString (printedCount (now - instant)) ++ " " ++ unitNoun (now - instant)
          ++ (if printedCount (now - instant) = 1 then "" else "s") ++ " ago" ∧
    1 ≤ printedCount (now - instant) := by
  unfold format_relative_time printedCount unitNoun
  by_cases h3 : now - instant < 3600
  · rw [branch_minutes strftime_local now instant h1 h3]
    simp only [h3, if_true]
    exact ⟨count_text_by_one _ "minute" (by omega), by omega⟩
  · by_cases h4 : now - instant < 86400
    · rw [branch_hours strftime_local now instant (by omega) h4]
      simp only [h3, h4, if_true, if_false]
      exact ⟨count_text_by_one _ "hour" (by omega), by omega⟩
    · rw [branch_days strftime_local now instant (by omega) h2]
      simp only [h3, h4, if_false]
      exact ⟨count_text_by_one _ "day" (by omega), by omega⟩

/-- Witness of C4: elapsed 61 gives "1 minute ago" and elapsed 120 gives
"2 minutes ago". -/
theorem format_relative_time_plural_witness :
    format_relative_time (fun _ => "") 1000061 1000000 = "1 minute ago" ∧
    format_relative_time (fun _ => "") 1000120 1000000 = "2 minutes ago" :=
  ⟨(format_relative_time_plural (fun _ => "") 1000061 1000000 (by decide) (by decide)).1.trans
      (by decide),
    (format_relative_time_plural (fun _ => "") 1000120 1000000 (by decide) (by decide)).1.trans
      (by decide)⟩

/-- C9: for a fixed instant and two current times `now1 ≤ now2`, the bucket
chosen at `now2` is the same as or later than the bucket chosen at `now1` in
the order just-now, minutes, hours, days, absolute-date. -/
theorem chosenBucket_monotone (instant now1 now2 : Int) (h : now1 ≤ now2) :
    (chosenBucket now1 instant).rank ≤ (chosenBucket now2 instant).rank := by
  unfold chosenBucket format_relative_time_branch difftime
  simp only []
  split_ifs <;> simp only [RelativeBucket.rank] <;> omega

/-- Witness of C9: an instant seen 30 seconds and then 2 hours later moves from
the just-now bucket to the hours bucket. -/
theorem chosenBucket_monotone_witness :
    (1000030 : Int) ≤ 1007200 ∧
      (chosenBucket 1000030 1000000).rank ≤ (chosenBucket 1007200 1000000).rank :=
  ⟨by decide, chosenBucket_monotone 1000000 1000030 1007200 (by decide)⟩

/-! ## Properties of the time-window filter -/

theorem wrapInt32_of_range (x : Int) (h1 : -2147483648 ≤ x) (h2 : x ≤ 2147483647) :
    wrapInt32 x = x := by
  unfold wrapInt32
  omega

theorem is_within_time_window_of_range (now timestamp hours : Int) (h1 : -596523 ≤ hours)
    (h2 : hours ≤ 596523) :
    is_within_time_window now timestamp hours = decide (timestamp ≥ now - hours * 3600) := by
  unfold is_within_time_window
  rw [wrapInt32_of_range _ (by omega) (by omega)]

theorem FilterByTimeWindow_loop_eq (now hours : Int) (l : List JsValue) :
    ∀ (i : Nat) (result : List Nat),
      FilterByTimeWindow_loop now hours l i result
        = result ++ ((l.enumFrom i).filter fun p => elementPasses now hours p.2).map Prod.fst := by
  induction l with
  | nil => intro i result; simp [FilterByTimeWindow_loop]
  | cons v rest ih =>
    intro i result
    cases v with
    | number ms =>
      by_cases hw :
          is_within_time_window now (double_to_time_t (double_div_1000 ms)) hours = true
      · simp [FilterByTimeWindow_loop, elementPasses, hw, ih, List.filter_cons]
      · simp [FilterByTimeWindow_loop, elementPasses, hw, ih, List.filter_cons]
    | string t => simp [FilterByTimeWindow_loop, elementPasses, ih, List.filter_cons]
    | other => simp [FilterByTimeWindow_loop, elementPasses, ih, List.filter_cons]

theorem FilterByTimeWindow_eq (now : Int) (hours_double : JsNumber) (l : List JsValue) :
    FilterByTimeWindow now l hours_double
      = (l.enum.filter fun p => elementPasses now (double_to_int hours_double) p.2).map
          Prod.fst := by
  unfold FilterByTimeWindow
  rw [FilterByTimeWindow_loop_eq]
  simp [List.enum]

theorem FilterByTimeWindow_pairwise (now : Int) (hours_double : JsNumber) (l : List JsValue) :
    (FilterByTimeWindow now l hours_double).Pairwise (· < ·) := by
  rw [FilterByTimeWindow_eq]
  have hs : ((l.enum.filter fun p =>
      elementPasses now (double_to_int hours_double) p.2).map Prod.fst).Sublist
      (l.enum.map Prod.fst) := (List.filter_sublist _).map _
  rw [List.enum_map_fst] at hs
  exact List.Pairwise.sublist hs (List.pairwise_lt_range _)

theorem FilterByTimeWindow_mem (now : Int) (hours_double : JsNumber) (l : List JsValue)
    (i : Nat) :
    i ∈ FilterByTimeWindow now l hours_double ↔
      ∃ v, l[i]? = some v ∧ elementPasses now (double_to_int hours_double) v = true := by
  rw [FilterByTimeWindow_eq]
  simp only [List.mem_map, List.mem_filter, Prod.exists, exists_and_right, exists_eq_right,
    List.mk_mem_enum_iff_getElem?]

/-- C5 (code defect): at `now = 1700000000` the entries now, two hours ago, a
string and fifty hours ago, filtered with a window of 600000 hours, give the
empty list, although the instants of the three numeric entries are all at
least `now - 600000 * 3600`, so that the positions 0, 1 and 3 are due.  The
product `hours * 3600` is computed in `int`, where `600000 * 3600` does not
fit and comes out as `-2134967296`; the cutoff lands after `now`.  With a
window of 24 hours the same entries give the positions 0 and 1. -/
theorem FilterByTimeWindow_hours_product_overflows :
    double_to_int (.finite 600000 0) = 600000 ∧
    wrapInt32 (600000 * 3600) = -2134967296 ∧
    double_to_time_t (double_div_1000 (.finite 1700000000000 0)) = 1700000000 ∧
    double_to_time_t (double_div_1000 (.finite 1699992800000 0)) = 1699992800 ∧
    double_to_time_t (double_div_1000 (.finite 1699820000000 0)) = 1699820000 ∧
    (1699820000 : Int) ≥ 1700000000 - 600000 * 3600 ∧
    FilterByTimeWindow 1700000000
      [.number (.finite 1700000000000 0), .number (.finite 1699992800000 0),
        .string "bad".toList, .number (.finite 1699820000000 0)] (.finite 600000 0) = [] ∧
    FilterByTimeWindow 1700000000
      [.number (.finite 1700000000000 0), .number (.finite 1699992800000 0),
        .string "bad".toList, .number (.finite 1699820000000 0)] (.finite 24 0) = [0, 1] := by
  refine ⟨?_, ?_, ?_, ?_, ?_, ?_, ?_, ?_⟩ <;> decide

/-- C6 (amended): for every hour count `hours ≤ 0` (down to `-596523`, so that
`hours * 3600` fits an `int`) the cutoff is `now - hours * 3600`, that is
`now` plus `3600` seconds for each hour below zero: an instant passes
`is_within_time_window` if and only if it is at least `now + (-hours) * 3600`.
For `hours = 0` this is `instant ≥ now`; for negative `hours` every instant
that passes is at least `now`, but not every instant from `now` on passes. -/
theorem is_within_time_window_nonpositive (now instant hours : Int)
    (h1 : -596523 ≤ hours) (h2 : hours ≤ 0) :
    (is_within_time_window now instant hours = true ↔ instant ≥ now + (-hours) * 3600) ∧
    (hours = 0 → (is_within_time_window now instant hours = true ↔ instant ≥ now)) ∧
    (is_within_time_window now instant hours = true → instant ≥ now) := by
  rw [is_within_time_window_of_range _ _ _ h1 (by omega)]
  simp only [decide_eq_true_eq]
  refine ⟨?_, ?_, ?_⟩
  · constructor <;> intro h <;> omega
  · intro h0
    subst h0
    constructor <;> intro h <;> omega
  · intro h
    omega

/-- Witness of C6 (amended): with `hours = -2` and `now = 1000000` the instant
`1007200` passes. -/
theorem is_within_time_window_nonpositive_witness :
    ((-596523 : Int) ≤ -2 ∧ (-2 : Int) ≤ 0) ∧
    is_within_time_window 1000000 1007200 (-2) = true ∧
    ((is_within_time_window 1000000 1007200 (-2) = true ↔
        (1007200 : Int) ≥ 1000000 + (-(-2)) * 3600) ∧
      ((-2 : Int) = 0 →
        (is_within_time_window 1000000 1007200 (-2) = true ↔ (1007200 : Int) ≥ 1000000)) ∧
      (is_within_time_window 1000000 1007200 (-2) = true → (1007200 : Int) ≥ 1000000)) :=
  ⟨by decide, by decide,
    is_within_time_window_nonpositive 1000000 1007200 (-2) (by decide) (by decide)⟩

/-- C6 as stated fails for a negative hour count: with `hours = -1` the cutoff
is `now + 3600`, so the instant `now` itself does not pass. -/
theorem is_within_time_window_negative_cutoff_after_now :
    ¬ ∀ (now instant hours : Int), hours ≤ 0 →
        (is_within_time_window now instant hours = true ↔ instant ≥ now) := by
  intro h
  have h0 := (h 0 0 (-1) (by decide)).mpr (by decide)
  exact absurd h0 (by decide)

/-! ## Properties of `ParseRSSDate` -/

theorem takeWhile_take_comm (p : Char → Bool) (l : List Char) :
    ∀ n : Nat, (l.take n).takeWhile p = (l.takeWhile p).take n := by
  induction l with
  | nil => intro n; simp
  | cons c rest ih =>
    intro n
    cases n with
    | zero => simp
    | succ k =>
      by_cases hc : p c = true
      · simp [List.takeWhile_cons, hc, ih k]
      · simp [List.takeWhile_cons, hc]

theorem extract_date_eq (arg : Option JsValue) :
    extract_date arg = (textBeforeNul arg).take 255 := by
  unfold extract_date textBeforeNul napi_get_value_string_utf8 c_str
  split
  · exact takeWhile_take_comm _ _ 255
  · simp

theorem take_eq_nil_of_pos (l : List Char) (n : Nat) (hn : 0 < n) :
    l.take n = [] ↔ l = [] := by
  cases l with
  | nil => simp
  | cons c rest =>
    cases n with
    | zero => exact absurd hn (by decide)
    | succ k => simp

theorem date_to_parse_eq (args : List JsValue) :
    (if (extract_date args[0]?).length > 0 then extract_date args[0]?
      else extract_date args[1]?) = (chosenText args).take 255 := by
  unfold chosenText
  rw [extract_date_eq args[0]?, extract_date_eq args[1]?]
  by_cases h : textBeforeNul args[0]? = []
  · simp [h]
  · have h2 : (textBeforeNul args[0]?).take 255 ≠ [] := by
      rw [ne_eq, take_eq_nil_of_pos _ 255 (by decide)]
      exact h
    have h3 : ((textBeforeNul args[0]?).take 255).length > 0 := List.length_pos.mpr h2
    simp only [h3, if_true, ne_eq, h, not_false_eq_true]

theorem parse_date_string_of_no_match (s : List Char) (h : (parse_attempts s).1 = none) :
    parse_date_string (some s) = -1 := by
  unfold parse_date_string
  simp only [h, Option.isNone_none, if_true]
  split_ifs <;> rfl

theorem parse_date_string_of_match (s : List Char) (hs : s ≠ [])
    (h : (parse_attempts s).1 ≠ none) :
    parse_date_string (some s) = timegm (parse_attempts s).2 := by
  unfold parse_date_string
  have hl : ¬ s.length = 0 := by simpa using hs
  have hn : (parse_attempts s).1.isNone = false := by
    cases hr : (parse_attempts s).1 with
    | none => exact absurd hr h
    | some r => rfl
  simp only [hl, hn, if_false, Bool.false_eq_true]

theorem ParseRSSDate_eq (now : Int) (args : List JsValue) :
    ParseRSSDate now args
      = if chosenText args = [] then .null
        else if is_valid_article_date now
            (parse_date_string (some ((chosenText args).take 255))) = true
          then .date (parse_date_string (some ((chosenText args).take 255)) * 1000)
        else .null := by
  unfold ParseRSSDate
  simp only [date_to_parse_eq]
  by_cases hc : chosenText args = []
  · simp [hc]
  · have h2 : (chosenText args).take 255 ≠ [] := by
      rw [ne_eq, take_eq_nil_of_pos _ 255 (by decide)]
      exact hc
    have h3 : ¬ ((chosenText args).take 255).length = 0 := by
      simpa using h2
    simp only [h3, hc, if_false]
    cases is_valid_article_date now (parse_date_string (some ((chosenText args).take 255)))
      <;> simp

/-- C2 (amended): let `chosen` be the primary text up to its first NUL when
that is not empty, and the fallback text up to its first NUL otherwise (an
absent or non-string argument counts as empty).  `ParseRSSDate` returns null
when `chosen` is empty, when none of the four patterns matches the first 255
characters of `chosen`, and when `is_valid_article_date` rejects the parsed
instant; in every other case it returns the parsed instant in seconds
multiplied by 1000.  In particular two empty strings give null. -/
theorem ParseRSSDate_result (now : Int) (args : List JsValue) :
    (chosenText args = [] → ParseRSSDate now args = .null) ∧
    ((parse_attempts ((chosenText args).take 255)).1 = none →
      ParseRSSDate now args = .null) ∧
    (is_valid_article_date now (timegm (parse_attempts ((chosenText args).take 255)).2)
        = false →
      ParseRSSDate now args = .null) ∧
    (chosenText args ≠ [] → (parse_attempts ((chosenText args).take 255)).1 ≠ none →
      is_valid_article_date now (timegm (parse_attempts ((chosenText args).take 255)).2)
        = true →
      ParseRSSDate now args
        = .date (timegm (parse_attempts ((chosenText args).take 255)).2 * 1000)) ∧
    ParseRSSDate now [.string [], .string []] = .null := by
  have hne : chosenText args ≠ [] → (chosenText args).take 255 ≠ [] := by
    intro hc
    rw [ne_eq, take_eq_nil_of_pos _ 255 (by decide)]
    exact hc
  refine ⟨?_, ?_, ?_, ?_, ?_⟩
  · intro h
    rw [ParseRSSDate_eq, if_pos h]
  · intro h
    rw [ParseRSSDate_eq, parse_date_string_of_no_match _ h]
    split_ifs with h1 h2
    · rfl
    · exact absurd h2 (by simp [is_valid_article_date])
    · rfl
  · intro h
    rw [ParseRSSDate_eq]
    by_cases hc : chosenText args = []
    · rw [if_pos hc]
    · rw [if_neg hc]
      by_cases hm : (parse_attempts ((chosenText args).take 255)).1 = none
      · rw [parse_date_string_of_no_match _ hm]
        simp [is_valid_article_date]
      · rw [parse_date_string_of_match _ (hne hc) hm, h]
        simp
  · intro hc hm hv
    rw [ParseRSSDate_eq, if_neg hc, parse_date_string_of_match _ (hne hc) hm, if_pos hv]
  · rfl

/-- Witness of C2 (amended): at `now = 1608900000` the primary text
`Fri, 25 Dec 2020 12:00:00` gives the date `1608897600000`, whatever the
fallback; an unparseable primary text gives null even with a parseable
fallback; and an absent primary text lets the fallback decide. -/
theorem ParseRSSDate_result_witness :
    ParseRSSDate 1608900000 [.string "Fri, 25 Dec 2020 12:00:00".toList, .string []]
      = .date 1608897600000 ∧
    ParseRSSDate 1608900000 [.string "yesterday".toList, .string "2020-12-25T12:00:00".toList]
      = .null ∧
    ParseRSSDate 1608900000 [.other, .string "2020-12-25T12:00:00".toList]
      = .date 1608897600000 :=
  ⟨((ParseRSSDate_result 1608900000
        [.string "Fri, 25 Dec 2020 12:00:00".toList, .string []]).2.2.2.1
      (by decide) (by decide) (by decide)).trans (by decide),
    (ParseRSSDate_result 1608900000
        [.string "yesterday".toList, .string "2020-12-25T12:00:00".toList]).2.1 (by decide),
    ((ParseRSSDate_result 1608900000
        [.other, .string "2020-12-25T12:00:00".toList]).2.2.2.1
      (by decide) (by decide) (by decide)).trans (by decide)⟩

/-- C2 as stated fails for a primary text that starts with a NUL character:
the string made of NUL, `a`, `b`, `c` is not empty and no pattern matches it,
so the result should be null whatever the fallback; but its buffer holds the
empty C string, the fallback `2020-12-25T12:00:00` is parsed instead, and at
`now = 1608900000` the result is the date `1608897600000`. -/
theorem ParseRSSDate_consults_fallback_after_nul :
    ¬ ∀ (now : Int) (primary fallback : List Char), primary ≠ [] →
        (parse_attempts (primary.take 255)).1 = none →
        ParseRSSDate now [.string primary, .string fallback] = .null := by
  intro h
  have h0 := h 1608900000 (Char.ofNat 0 :: "abc".toList) "2020-12-25T12:00:00".toList
    (by decide) (by decide)
  exact absurd h0 (by decide)

/-! ## Defects of `parse_date_string` -/

/-- C8 (code defect): on the text `2020-12-25T12:30` the first three patterns
fail and the date-only pattern matches, yet `parse_date_string` returns
`1608899400`, which is 2020-12-25 12:30:00 UTC, and not `1608854400`, the
midnight of that day: the hour and minute stored by the failed first attempt
stay in `tm`. -/
theorem parse_date_string_keeps_fields_of_failed_attempt :
    (strptime "2020-12-25T12:30".toList "%Y-%m-%dT%H:%M:%S".toList Tm.zero).1 = none ∧
    (strptime "2020-12-25T12:30".toList "%a, %d %b %Y %H:%M:%S".toList Tm.zero).1 = none ∧
    (strptime "2020-12-25T12:30".toList "%Y-%m-%d %H:%M:%S".toList Tm.zero).1 = none ∧
    (strptime "2020-12-25T12:30".toList "%Y-%m-%d".toList Tm.zero)
      = (some "T12:30".toList, { Tm.zero with tm_year := 120, tm_mon := 11, tm_mday := 25 }) ∧
    timegm { Tm.zero with tm_year := 120, tm_mon := 11, tm_mday := 25 } = 1608854400 ∧
    (parse_attempts "2020-12-25T12:30".toList).2
      = { Tm.zero with
          tm_year := 120, tm_mon := 11, tm_mday := 25, tm_hour := 12, tm_min := 30 } ∧
    parse_date_string (some "2020-12-25T12:30".toList) = 1608899400 := by
  refine ⟨?_, ?_, ?_, ?_, ?_, ?_, ?_⟩ <;> decide

/-- C10 (code defect): the text `1969-12-31T23:59:59` is matched by the first
pattern and `parse_date_string` returns `-1` for it, the value it returns for
unparseable input; `is_valid_article_date` then rejects it at every current
time, also at `now = 0`, where the instant lies inside the freshness
window. -/
theorem parse_date_string_sentinel_collision :
    (strptime "1969-12-31T23:59:59".toList "%Y-%m-%dT%H:%M:%S".toList Tm.zero)
      = (some [], { Tm.zero with
          tm_year := 69, tm_mon := 11, tm_mday := 31, tm_hour := 23, tm_min := 59,
          tm_sec := 59 }) ∧
    parse_date_string (some "1969-12-31T23:59:59".toList) = -1 ∧
    parse_date_string (some "not a date".toList) = -1 ∧
    (∀ now : Int,
      is_valid_article_date now (parse_date_string (some "1969-12-31T23:59:59".toList))
        = false) ∧
    ((0 : Int) - 604800 ≤ -1 ∧ (-1 : Int) ≤ 0 + 3600) := by
  refine ⟨by decide, by decide, by decide, ?_, by decide⟩
  intro now
  have h : parse_date_string (some "1969-12-31T23:59:59".toList) = -1 := by decide
  rw [h]
  rfl

/-! ## Format invariance of `parse_date_string` -/

theorem isdigit_digitChar (d : Nat) (h : d < 10) : isdigit (digitChar d) = true := by
  interval_cases d <;> rfl

theorem isspace_digitChar (d : Nat) (h : d < 10) : isspace (digitChar d) = false := by
  interval_cases d <;> rfl

theorem toNat_digitChar (d : Nat) (h : d < 10) : ((digitChar d).toNat : Int) - 48 = d := by
  interval_cases d <;> rfl

theorem skip_spaces_digit (d : Nat) (h : d < 10) (rp : List Char) :
    skip_spaces (digitChar d :: rp) = digitChar d :: rp := by
  simp [skip_spaces, isspace_digitChar d h]

theorem get_number_loop_last (hi val : Int) (c : Char) (rp : List Char) :
    get_number_loop hi 1 val (c :: rp) = (val * 10 + ((c.toNat : Int) - 48), rp) := by
  cases rp with
  | nil => simp [get_number_loop]
  | cons d rest => simp [get_number_loop]

theorem get_number_loop_more (hi val : Int) (n : Nat) (c d : Char) (rp : List Char)
    (hn : 2 ≤ n) (hv : (val * 10 + ((c.toNat : Int) - 48)) * 10 ≤ hi) (hd : isdigit d = true) :
    get_number_loop hi n val (c :: d :: rp)
      = get_number_loop hi (n - 1) (val * 10 + ((c.toNat : Int) - 48)) (d :: rp) := by
  have h1 : n - 1 > 0 := by omega
  simp [get_number_loop, h1, hv, hd]

theorem get_number_two (lo hi : Int) (a b : Nat) (rp : List Char) (ha : a < 10) (hb : b < 10)
    (hlo : lo ≤ 10 * a + b) (hhi : (10 * a + b : Int) ≤ hi) :
    get_number lo hi 2 (digitChar a :: digitChar b :: rp) = some ((10 * a + b : Int), rp) := by
  unfold get_number
  rw [skip_spaces_digit a ha]
  simp only [isdigit_digitChar a ha, if_true]
  rw [get_number_loop_more hi 0 2 _ _ _ (by omega) (by rw [toNat_digitChar a ha]; omega)
    (isdigit_digitChar b hb)]
  rw [get_number_loop_last, toNat_digitChar a ha, toNat_digitChar b hb]
  have e : ((0 : Int) * 10 + a) * 10 + b = 10 * a + b := by ring
  rw [e]
  have h3 : ¬ ((10 * a + b : Int) < lo ∨ (10 * a + b : Int) > hi) := by omega
  simp only [h3, if_false]

theorem get_number_four (a b c d : Nat) (rp : List Char) (ha : a < 10) (hb : b < 10)
    (hc : c < 10) (hd : d < 10) :
    get_number 0 9999 4 (digitChar a :: digitChar b :: digitChar c :: digitChar d :: rp)
      = some ((1000 * a + 100 * b + 10 * c + d : Int), rp) := by
  unfold get_number
  rw [skip_spaces_digit a ha]
  simp only [isdigit_digitChar a ha, if_true]
  rw [get_number_loop_more 9999 0 4 _ _ _ (by omega) (by rw [toNat_digitChar a ha]; omega)
    (isdigit_digitChar b hb)]
  rw [toNat_digitChar a ha]
  rw [get_number_loop_more 9999 _ 3 _ _ _ (by omega) (by rw [toNat_digitChar b hb]; omega)
    (isdigit_digitChar c hc)]
  rw [toNat_digitChar b hb]
  rw [get_number_loop_more 9999 _ 2 _ _ _ (by omega) (by rw [toNat_digitChar c hc]; omega)
    (isdigit_digitChar d hd)]
  rw [toNat_digitChar c hc]
  rw [get_number_loop_last, toNat_digitChar d hd]
  have e : ((((0 : Int) * 10 + a) * 10 + b) * 10 + c) * 10 + d
      = 1000 * a + 100 * b + 10 * c + d := by ring
  rw [e]
  have h3 : ¬ ((1000 * a + 100 * b + 10 * c + d : Int) < 0
      ∨ (1000 * a + 100 * b + 10 * c + d : Int) > 9999) := by omega
  simp only [h3, if_false]

theorem get_number_pad2 (lo hi : Int) (v : Nat) (rp : List Char) (hv : v < 100)
    (hlo : lo ≤ v) (hhi : (v : Int) ≤ hi) :
    get_number lo hi 2 (pad2 v ++ rp) = some ((v : Int), rp) := by
  have e : (10 * ((v / 10 : Nat) : Int) + ((v % 10 : Nat) : Int)) = (v : Int) := by omega
  have h := get_number_two lo hi (v / 10) (v % 10) rp (by omega) (by omega) (by omega) (by omega)
  rw [e] at h
  exact h

theorem get_number_pad4 (v : Nat) (rp : List Char) (hv : v ≤ 9999) :
    get_number 0 9999 4 (pad4 v ++ rp) = some ((v : Int), rp) := by
  have e : (1000 * ((v / 1000 : Nat) : Int) + 100 * ((v / 100 % 10 : Nat) : Int)
      + 10 * ((v / 10 % 10 : Nat) : Int) + ((v % 10 : Nat) : Int)) = (v : Int) := by omega
  have h := get_number_four (v / 1000) (v / 100 % 10) (v / 10 % 10) (v % 10) rp
    (by omega) (by omega) (by omega) (by omega)
  rw [e] at h
  exact h

theorem strptime_conv_ok (spec : Char) (rp fmt : List Char) (tm : Tm) (rp2 : List Char)
    (tm2 : Tm) (h : strptime_conv spec rp tm = some (rp2, tm2)) :
    strptime rp ('%' :: spec :: fmt) tm = strptime rp2 fmt tm2 := by
  rw [strptime.eq_def]
  simp +decide [h]

theorem strptime_conv_fail (spec : Char) (rp fmt : List Char) (tm : Tm)
    (h : strptime_conv spec rp tm = none) :
    strptime rp ('%' :: spec :: fmt) tm = (none, tm) := by
  rw [strptime.eq_def]
  simp +decide [h]

theorem strptime_literal_step (f : Char) (rp fmt : List Char) (tm : Tm)
    (h1 : isspace f = false) (h2 : f ≠ '%') :
    strptime (f :: rp) (f :: fmt) tm = strptime rp fmt tm := by
  rw [strptime.eq_def]
  simp [h1, h2]

theorem strptime_literal_fail (f r : Char) (rp fmt : List Char) (tm : Tm)
    (h1 : isspace f = false) (h2 : f ≠ '%') (h3 : f ≠ r) :
    strptime (r :: rp) (f :: fmt) tm = (none, tm) := by
  rw [strptime.eq_def]
  simp [h1, h2, h3]

theorem strptime_literal_end (f : Char) (fmt : List Char) (tm : Tm)
    (h1 : isspace f = false) (h2 : f ≠ '%') :
    strptime [] (f :: fmt) tm = (none, tm) := by
  rw [strptime.eq_def]
  simp [h1, h2]

theorem strptime_space_step (f : Char) (rp fmt : List Char) (tm : Tm) (h1 : isspace f = true) :
    strptime rp (f :: fmt) tm = strptime (skip_spaces rp) fmt tm := by
  rw [strptime.eq_def]
  simp [h1]

theorem conv_Y (v : Nat) (rp : List Char) (tm : Tm) (hv : v ≤ 9999) :
    strptime_conv 'Y' (pad4 v ++ rp) tm = some (rp, { tm with tm_year := (v : Int) - 1900 }) := by
  unfold strptime_conv
  simp +decide [get_number_pad4 v rp hv]

theorem conv_m (v : Nat) (rp : List Char) (tm : Tm) (h1 : 1 ≤ v) (h2 : v ≤ 12) :
    strptime_conv 'm' (pad2 v ++ rp) tm = some (rp, { tm with tm_mon := (v : Int) - 1 }) := by
  unfold strptime_conv
  simp +decide [get_number_pad2 1 12 v rp (by omega) (by omega) (by omega)]

theorem conv_d (v : Nat) (rp : List Char) (tm : Tm) (h1 : 1 ≤ v) (h2 : v ≤ 31) :
    strptime_conv 'd' (pad2 v ++ rp) tm = some (rp, { tm with tm_mday := (v : Int) }) := by
  unfold strptime_conv
  simp +decide [get_number_pad2 1 31 v rp (by omega) (by omega) (by omega)]

theorem conv_H (v : Nat) (rp : List Char) (tm : Tm) (h2 : v ≤ 23) :
    strptime_conv 'H' (pad2 v ++ rp) tm = some (rp, { tm with tm_hour := (v : Int) }) := by
  unfold strptime_conv
  simp +decide [get_number_pad2 0 23 v rp (by omega) (by omega) (by omega)]

theorem conv_M (v : Nat) (rp : List Char) (tm : Tm) (h2 : v ≤ 59) :
    strptime_conv 'M' (pad2 v ++ rp) tm = some (rp, { tm with tm_min := (v : Int) }) := by
  unfold strptime_conv
  simp +decide [get_number_pad2 0 59 v rp (by omega) (by omega) (by omega)]

theorem conv_S (v : Nat) (rp : List Char) (tm : Tm) (h2 : v ≤ 61) :
    strptime_conv 'S' (pad2 v ++ rp) tm = some (rp, { tm with tm_sec := (v : Int) }) := by
  unfold strptime_conv
  simp +decide [get_number_pad2 0 61 v rp (by omega) (by omega) (by omega)]

theorem dateText_append (y m d : Nat) (rp : List Char) :
    dateText y m d ++ rp = pad4 y ++ '-' :: (pad2 m ++ '-' :: (pad2 d ++ rp)) := by
  simp [dateText]

theorem timeText_append (h mi s : Nat) (rp : List Char) :
    timeText h mi s ++ rp = pad2 h ++ ':' :: (pad2 mi ++ ':' :: (pad2 s ++ rp)) := by
  simp [timeText]

theorem strptime_date_part (y m d : Nat) (rp fmt : List Char) (tm : Tm) (hy : y ≤ 9999)
    (hm1 : 1 ≤ m) (hm2 : m ≤ 12) (hd1 : 1 ≤ d) (hd2 : d ≤ 31) :
    strptime (dateText y m d ++ rp) ('%' :: 'Y' :: '-' :: '%' :: 'm' :: '-' :: '%' :: 'd' :: fmt) tm
      = strptime rp fmt (withDate tm y m d) := by
  rw [dateText_append]
  rw [strptime_conv_ok _ _ _ _ _ _ (conv_Y y _ tm hy)]
  rw [strptime_literal_step '-' _ _ _ (by decide) (by decide)]
  rw [strptime_conv_ok _ _ _ _ _ _ (conv_m m _ _ hm1 hm2)]
  rw [strptime_literal_step '-' _ _ _ (by decide) (by decide)]
  rw [strptime_conv_ok _ _ _ _ _ _ (conv_d d _ _ hd1 hd2)]
  rfl

theorem strptime_time_part (h mi s : Nat) (rp fmt : List Char) (tm : Tm) (hh : h ≤ 23)
    (hmi : mi ≤ 59) (hs : s ≤ 61) :
    strptime (timeText h mi s ++ rp) ('%' :: 'H' :: ':' :: '%' :: 'M' :: ':' :: '%' :: 'S' :: fmt) tm
      = strptime rp fmt (withTime tm h mi s) := by
  rw [timeText_append]
  rw [strptime_conv_ok _ _ _ _ _ _ (conv_H h _ tm hh)]
  rw [strptime_literal_step ':' _ _ _ (by decide) (by decide)]
  rw [strptime_conv_ok _ _ _ _ _ _ (conv_M mi _ _ hmi)]
  rw [strptime_literal_step ':' _ _ _ (by decide) (by decide)]
  rw [strptime_conv_ok _ _ _ _ _ _ (conv_S s _ _ hs)]
  rfl

theorem fmt_iso : "%Y-%m-%dT%H:%M:%S".toList
    = '%' :: 'Y' :: '-' :: '%' :: 'm' :: '-' :: '%' :: 'd' :: 'T'
        :: '%' :: 'H' :: ':' :: '%' :: 'M' :: ':' :: '%' :: 'S' :: [] := rfl

theorem fmt_simple : "%Y-%m-%d %H:%M:%S".toList
    = '%' :: 'Y' :: '-' :: '%' :: 'm' :: '-' :: '%' :: 'd' :: ' '
        :: '%' :: 'H' :: ':' :: '%' :: 'M' :: ':' :: '%' :: 'S' :: [] := rfl

theorem fmt_date : "%Y-%m-%d".toList
    = '%' :: 'Y' :: '-' :: '%' :: 'm' :: '-' :: '%' :: 'd' :: [] := rfl

theorem fmt_rfc : "%a, %d %b %Y %H:%M:%S".toList
    = '%' :: 'a' :: ',' :: ' ' :: '%' :: 'd' :: ' ' :: '%' :: 'b' :: ' ' :: '%' :: 'Y' :: ' '
        :: '%' :: 'H' :: ':' :: '%' :: 'M' :: ':' :: '%' :: 'S' :: [] := rfl

theorem strptime_iso_isoText (y m d h mi s : Nat) (tm : Tm) (hy : y ≤ 9999)
    (hm1 : 1 ≤ m) (hm2 : m ≤ 12) (hd1 : 1 ≤ d) (hd2 : d ≤ 31) (hh : h ≤ 23)
    (hmi : mi ≤ 59) (hs : s ≤ 61) :
    strptime (isoText y m d h mi s) "%Y-%m-%dT%H:%M:%S".toList tm
      = (some [], withTime (withDate tm y m d) h mi s) := by
  rw [fmt_iso, isoText, strptime_date_part y m d _ _ tm hy hm1 hm2 hd1 hd2]
  rw [strptime_literal_step 'T' _ _ _ (by decide) (by decide)]
  rw [← List.append_nil (timeText h mi s), strptime_time_part h mi s _ _ _ hh hmi hs]
  rfl

theorem match_string_nil (rp : List Char) : match_string [] rp = some rp := by
  simp [match_string]

theorem match_string_cons (x c : Char) (name rp : List Char) :
    match_string (x :: name) (c :: rp)
      = if tolower c = tolower x then match_string name rp else none := by
  unfold match_string
  by_cases h : tolower c = tolower x
  · simp [h]
  · simp [h]

theorem weekday_search_abbrev (w : Nat) (hw : w < 7) (rp : List Char) :
    weekday_search (weekdayAbbrev w ++ ',' :: rp) = some ((w : Int), ',' :: rp) := by
  interval_cases w <;>
    simp +decide [weekday_search, weekday_names, weekday_loop, weekday_try, weekday_raw,
      weekday_raw_abbrev, weekdayAbbrev, ptr_gt, match_string_cons, match_string_nil] <;>
    omega

theorem match_longest_month (m : Nat) (h1 : 1 ≤ m) (h2 : m ≤ 12) (rp : List Char) :
    match_longest (monthAbbrev m ++ ' ' :: rp) month_names none
      = some ((m : Int) - 1, ' ' :: rp) := by
  interval_cases m <;>
    simp +decide [monthAbbrev, month_names, match_longest, match_string_cons,
      match_string_nil]

theorem tolower_digitChar (d : Nat) (h : d < 10) : tolower (digitChar d) = digitChar d := by
  interval_cases d <;> rfl

theorem match_string_digit (x : Char) (name rp : List Char) (d : Nat) (h : d < 10)
    (hx : isdigit (tolower x) = false) :
    match_string (x :: name) (digitChar d :: rp) = none := by
  rw [match_string_cons, tolower_digitChar d h]
  have hne : digitChar d ≠ tolower x := by
    intro e
    rw [← e, isdigit_digitChar d h] at hx
    exact absurd hx (by decide)
  simp [hne]

theorem weekday_loop_of_no_match (names : List (Int × List Char × List Char))
    (rp : List Char) (rp_longest : Option (List Char)) (cnt_longest : Int)
    (h : ∀ e ∈ names, match_string e.2.1 rp = none ∧ match_string e.2.2 rp = none) :
    weekday_loop names rp rp_longest cnt_longest
      = rp_longest.map fun longest => (cnt_longest, longest) := by
  induction names with
  | nil => rfl
  | cons e rest ih =>
    obtain ⟨cnt, full, abbr⟩ := e
    have he := h (cnt, full, abbr) (List.mem_cons_self _ _)
    have h1 : match_string full rp = none := he.1
    have h2 : match_string abbr rp = none := he.2
    simp only [weekday_loop, weekday_try, weekday_raw, weekday_raw_abbrev, h1, h2]
    exact ih (fun x hx => h x (List.mem_cons_of_mem _ hx))

theorem weekday_names_letters :
    ∀ e ∈ weekday_names,
      (e.2.1.head?.map fun x => isdigit (tolower x)) = some false ∧
      (e.2.2.head?.map fun x => isdigit (tolower x)) = some false := by
  decide

theorem match_string_digit_of_head (name rp : List Char) (d : Nat) (h : d < 10)
    (hl : (name.head?.map fun x => isdigit (tolower x)) = some false) :
    match_string name (digitChar d :: rp) = none := by
  cases name with
  | nil => simp at hl
  | cons x rest => exact match_string_digit x rest rp d h (by simpa using hl)

theorem conv_a_digit (d : Nat) (h : d < 10) (rp : List Char) (tm : Tm) :
    strptime_conv 'a' (digitChar d :: rp) tm = none := by
  have hnone : weekday_search (digitChar d :: rp) = none := by
    unfold weekday_search
    rw [weekday_loop_of_no_match]
    · rfl
    · intro e he
      have hl := weekday_names_letters e he
      exact ⟨match_string_digit_of_head _ rp d h hl.1,
        match_string_digit_of_head _ rp d h hl.2⟩
  unfold strptime_conv
  simp +decide [hnone]

theorem strptime_rfc_dateText (y m d : Nat) (rp : List Char) (tm : Tm) (hy : y ≤ 9999) :
    strptime (dateText y m d ++ rp) "%a, %d %b %Y %H:%M:%S".toList tm = (none, tm) := by
  rw [fmt_rfc, dateText_append]
  exact strptime_conv_fail _ _ _ _ (conv_a_digit (y / 1000) (by omega) _ tm)

theorem get_number_no_digit (lo hi : Int) (n : Nat) (c : Char) (rp : List Char)
    (h1 : isspace c = false) (h2 : isdigit c = false) : get_number lo hi n (c :: rp) = none := by
  simp [get_number, skip_spaces, h1, h2]

theorem weekdayAbbrev_head (w : Nat) :
    ∃ c rest, weekdayAbbrev w = c :: rest ∧ isspace c = false ∧ isdigit c = false := by
  unfold weekdayAbbrev
  split <;> exact ⟨_, _, rfl, by decide, by decide⟩

theorem conv_Y_weekday (w : Nat) (rp : List Char) (tm : Tm) :
    strptime_conv 'Y' (weekdayAbbrev w ++ rp) tm = none := by
  obtain ⟨c, rest, e, h1, h2⟩ := weekdayAbbrev_head w
  rw [e]
  unfold strptime_conv
  simp +decide [get_number_no_digit _ _ _ c _ h1 h2]

theorem skip_spaces_space (rp : List Char) : skip_spaces (' ' :: rp) = skip_spaces rp := by
  simp +decide [skip_spaces]

theorem skip_spaces_pad2 (v : Nat) (hv : v < 100) (rp : List Char) :
    skip_spaces (pad2 v ++ rp) = pad2 v ++ rp :=
  skip_spaces_digit (v / 10) (by omega) _

theorem skip_spaces_pad4 (v : Nat) (hv : v ≤ 9999) (rp : List Char) :
    skip_spaces (pad4 v ++ rp) = pad4 v ++ rp :=
  skip_spaces_digit (v / 1000) (by omega) _

theorem skip_spaces_month (m : Nat) (rp : List Char) :
    skip_spaces (monthAbbrev m ++ rp) = monthAbbrev m ++ rp := by
  unfold monthAbbrev
  split <;> simp +decide [skip_spaces]

theorem skip_spaces_timeText (h mi s : Nat) (hh : h ≤ 23) (rp : List Char) :
    skip_spaces (timeText h mi s ++ rp) = timeText h mi s ++ rp := by
  rw [timeText_append]
  exact skip_spaces_pad2 h (by omega) _

theorem strptime_iso_rfcText (w y m d h mi s : Nat) (tm : Tm) :
    strptime (rfcText w y m d h mi s) "%Y-%m-%dT%H:%M:%S".toList tm = (none, tm) := by
  rw [fmt_iso, rfcText]
  exact strptime_conv_fail _ _ _ _ (conv_Y_weekday w _ tm)

theorem strptime_rfc_rfcText (w y m d h mi s : Nat) (tm : Tm) (hw : w < 7) (hy : y ≤ 9999)
    (hm1 : 1 ≤ m) (hm2 : m ≤ 12) (hd1 : 1 ≤ d) (hd2 : d ≤ 31) (hh : h ≤ 23)
    (hmi : mi ≤ 59) (hs : s ≤ 61) :
    strptime (rfcText w y m d h mi s) "%a, %d %b %Y %H:%M:%S".toList tm
      = (some [], withTime (withDate { tm with tm_wday := (w : Int) } y m d) h mi s) := by
  have ha : strptime_conv 'a' (rfcText w y m d h mi s) tm
      = some (',' :: ' ' :: (pad2 d ++ ' ' :: (monthAbbrev m ++ ' ' :: (pad4 y
          ++ ' ' :: timeText h mi s))), { tm with tm_wday := (w : Int) }) := by
    unfold strptime_conv rfcText
    simp +decide [weekday_search_abbrev w hw]
  have hb : ∀ (rp : List Char) (t : Tm), strptime_conv 'b' (monthAbbrev m ++ ' ' :: rp) t
      = some (' ' :: rp, { t with tm_mon := (m : Int) - 1 }) := by
    intro rp t
    unfold strptime_conv
    simp +decide [match_longest_month m hm1 hm2]
  rw [fmt_rfc, strptime_conv_ok _ _ _ _ _ _ ha]
  rw [strptime_literal_step ',' _ _ _ (by decide) (by decide)]
  rw [strptime_space_step ' ' _ _ _ (by decide), skip_spaces_space,
    skip_spaces_pad2 d (by omega)]
  rw [strptime_conv_ok _ _ _ _ _ _ (conv_d d _ _ hd1 hd2)]
  rw [strptime_space_step ' ' _ _ _ (by decide), skip_spaces_space, skip_spaces_month]
  rw [strptime_conv_ok _ _ _ _ _ _ (hb _ _)]
  rw [strptime_space_step ' ' _ _ _ (by decide), skip_spaces_space,
    skip_spaces_pad4 y hy]
  rw [strptime_conv_ok _ _ _ _ _ _ (conv_Y y _ _ hy)]
  rw [strptime_space_step ' ' _ _ _ (by decide), skip_spaces_space]
  rw [← List.append_nil (timeText h mi s), skip_spaces_timeText h mi s hh,
    strptime_time_part h mi s _ _ _ hh hmi hs]
  rfl

theorem strptime_iso_simpleText (y m d h mi s : Nat) (tm : Tm) (hy : y ≤ 9999)
    (hm1 : 1 ≤ m) (hm2 : m ≤ 12) (hd1 : 1 ≤ d) (hd2 : d ≤ 31) :
    strptime (simpleText y m d h mi s) "%Y-%m-%dT%H:%M:%S".toList tm
      = (none, withDate tm y m d) := by
  rw [fmt_iso, simpleText, strptime_date_part y m d _ _ tm hy hm1 hm2 hd1 hd2]
  exact strptime_literal_fail 'T' ' ' _ _ _ (by decide) (by decide) (by decide)

theorem strptime_simple_simpleText (y m d h mi s : Nat) (tm : Tm) (hy : y ≤ 9999)
    (hm1 : 1 ≤ m) (hm2 : m ≤ 12) (hd1 : 1 ≤ d) (hd2 : d ≤ 31) (hh : h ≤ 23)
    (hmi : mi ≤ 59) (hs : s ≤ 61) :
    strptime (simpleText y m d h mi s) "%Y-%m-%d %H:%M:%S".toList tm
      = (some [], withTime (withDate tm y m d) h mi s) := by
  rw [fmt_simple, simpleText, strptime_date_part y m d _ _ tm hy hm1 hm2 hd1 hd2]
  rw [strptime_space_step ' ' _ _ _ (by decide), skip_spaces_space]
  rw [← List.append_nil (timeText h mi s), skip_spaces_timeText h mi s hh,
    strptime_time_part h mi s _ _ _ hh hmi hs]
  rfl

theorem strptime_iso_dateText (y m d : Nat) (tm : Tm) (hy : y ≤ 9999)
    (hm1 : 1 ≤ m) (hm2 : m ≤ 12) (hd1 : 1 ≤ d) (hd2 : d ≤ 31) :
    strptime (dateText y m d) "%Y-%m-%dT%H:%M:%S".toList tm = (none, withDate tm y m d) := by
  rw [fmt_iso, ← List.append_nil (dateText y m d),
    strptime_date_part y m d _ _ tm hy hm1 hm2 hd1 hd2]
  exact strptime_literal_end 'T' _ _ (by decide) (by decide)

theorem strptime_simple_dateText (y m d : Nat) (tm : Tm) (hy : y ≤ 9999)
    (hm1 : 1 ≤ m) (hm2 : m ≤ 12) (hd1 : 1 ≤ d) (hd2 : d ≤ 31) :
    strptime (dateText y m d) "%Y-%m-%d %H:%M:%S".toList tm = (none, withDate tm y m d) := by
  rw [fmt_simple, ← List.append_nil (dateText y m d),
    strptime_date_part y m d _ _ tm hy hm1 hm2 hd1 hd2]
  rw [strptime_space_step ' ' _ _ _ (by decide)]
  exact strptime_conv_fail _ _ _ _ (by simp +decide [strptime_conv, get_number, skip_spaces])

theorem strptime_date_dateText (y m d : Nat) (tm : Tm) (hy : y ≤ 9999)
    (hm1 : 1 ≤ m) (hm2 : m ≤ 12) (hd1 : 1 ≤ d) (hd2 : d ≤ 31) :
    strptime (dateText y m d) "%Y-%m-%d".toList tm = (some [], withDate tm y m d) := by
  rw [fmt_date, ← List.append_nil (dateText y m d),
    strptime_date_part y m d _ _ tm hy hm1 hm2 hd1 hd2]
  rfl

theorem leapyear_natCast (y : Nat) : leapyear (y : Int) = isLeapYear y := by
  unfold leapyear isLeapYear
  rw [Bool.eq_iff_iff]
  simp only [Bool.and_eq_true, Bool.or_eq_true, beq_iff_eq, bne_iff_ne, ne_eq]
  omega

theorem leapsThrough_succ (y : Nat) :
    leapsThrough (y : Int) = leapsThrough ((y : Int) - 1) + (if isLeapYear y then 1 else 0) := by
  unfold leapsThrough isLeapYear
  by_cases h4 : y % 4 = 0 <;> by_cases h100 : y % 100 = 0 <;> by_cases h400 : y % 400 = 0 <;>
    simp [h4, h100, h400] <;> omega

theorem daysBeforeYear_closed (y : Nat) :
    (daysBeforeYear y : Int) = 365 * (y : Int) + leapsThrough ((y : Int) - 1) + 1 := by
  induction y with
  | zero => decide
  | succ n ih =>
    have hs := leapsThrough_succ n
    have e : ((n + 1 : Nat) : Int) - 1 = (n : Int) := by omega
    rw [e, hs]
    simp only [daysBeforeYear, daysInYear]
    push_cast
    rw [ih]
    split_ifs <;> ring

theorem daysBeforeYear_1970 : (daysBeforeYear 1970 : Int) = 719528 := by
  rw [daysBeforeYear_closed]
  decide

theorem mon_yday_eq (y m : Nat) (h1 : 1 ≤ m) (h2 : m ≤ 12) :
    mon_yday (leapyear (y : Int)) ((m : Int) - 1) = (daysBeforeMonth y m : Int) := by
  rw [leapyear_natCast]
  interval_cases m <;> cases hl : isLeapYear y <;>
    simp +decide [mon_yday, daysBeforeMonth, daysInMonth, hl]

theorem timegm_fields (tm : Tm) (y m d h mi s : Nat) (hm1 : 1 ≤ m) (hm2 : m ≤ 12) :
    timegm (withTime (withDate tm y m d) h mi s) = utcEpochSeconds y m d h mi s := by
  unfold timegm utcEpochSeconds daysFromEpoch withTime withDate
  simp only []
  have e1 : (y : Int) - 1900 + 1900 + ((m : Int) - 1) / 12 = (y : Int) := by omega
  have e2 : ((m : Int) - 1) % 12 = (m : Int) - 1 := by omega
  rw [e1, e2, mon_yday_eq y m hm1 hm2, daysBeforeYear_closed y, daysBeforeYear_1970]
  have e3 : leapsThrough 1969 = 477 := by decide
  rw [e3]
  ring

/-! ### The four attempts on each layout -/

theorem parse_attempts_isoText (y m d h mi s : Nat) (hy : y ≤ 9999)
    (hm1 : 1 ≤ m) (hm2 : m ≤ 12) (hd1 : 1 ≤ d) (hd2 : d ≤ 31) (hh : h ≤ 23)
    (hmi : mi ≤ 59) (hs : s ≤ 61) :
    parse_attempts (isoText y m d h mi s)
      = (some [], withTime (withDate Tm.zero y m d) h mi s) := by
  unfold parse_attempts
  simp only [strptime_iso_isoText y m d h mi s Tm.zero hy hm1 hm2 hd1 hd2 hh hmi hs,
    Option.isNone_some, Option.isNone_none, if_true, if_false, Bool.false_eq_true]

theorem parse_attempts_rfcText (w y m d h mi s : Nat) (hw : w < 7) (hy : y ≤ 9999)
    (hm1 : 1 ≤ m) (hm2 : m ≤ 12) (hd1 : 1 ≤ d) (hd2 : d ≤ 31) (hh : h ≤ 23)
    (hmi : mi ≤ 59) (hs : s ≤ 61) :
    parse_attempts (rfcText w y m d h mi s)
      = (some [], withTime (withDate { Tm.zero with tm_wday := (w : Int) } y m d) h mi s) := by
  unfold parse_attempts
  simp only [strptime_iso_rfcText,
    strptime_rfc_rfcText w y m d h mi s Tm.zero hw hy hm1 hm2 hd1 hd2 hh hmi hs,
    Option.isNone_some, Option.isNone_none, if_true, if_false, Bool.false_eq_true]

theorem parse_attempts_simpleText (y m d h mi s : Nat) (hy : y ≤ 9999)
    (hm1 : 1 ≤ m) (hm2 : m ≤ 12) (hd1 : 1 ≤ d) (hd2 : d ≤ 31) (hh : h ≤ 23)
    (hmi : mi ≤ 59) (hs : s ≤ 61) :
    parse_attempts (simpleText y m d h mi s)
      = (some [], withTime (withDate (withDate Tm.zero y m d) y m d) h mi s) := by
  have h2 : strptime (simpleText y m d h mi s) "%a, %d %b %Y %H:%M:%S".toList
      (withDate Tm.zero y m d) = (none, withDate Tm.zero y m d) :=
    strptime_rfc_dateText y m d _ _ hy
  unfold parse_attempts
  simp only [strptime_iso_simpleText y m d h mi s Tm.zero hy hm1 hm2 hd1 hd2, h2,
    strptime_simple_simpleText y m d h mi s _ hy hm1 hm2 hd1 hd2 hh hmi hs,
    Option.isNone_some, Option.isNone_none, if_true, if_false, Bool.false_eq_true]

theorem parse_attempts_dateText (y m d : Nat) (hy : y ≤ 9999)
    (hm1 : 1 ≤ m) (hm2 : m ≤ 12) (hd1 : 1 ≤ d) (hd2 : d ≤ 31) :
    parse_attempts (dateText y m d)
      = (some [], withTime (withDate (withDate (withDate Tm.zero y m d) y m d) y m d) 0 0 0) := by
  have h2 : strptime (dateText y m d) "%a, %d %b %Y %H:%M:%S".toList
      (withDate Tm.zero y m d) = (none, withDate Tm.zero y m d) := by
    have h := strptime_rfc_dateText y m d [] (withDate Tm.zero y m d) hy
    rwa [List.append_nil] at h
  unfold parse_attempts
  simp only [strptime_iso_dateText y m d Tm.zero hy hm1 hm2 hd1 hd2, h2,
    strptime_simple_dateText y m d _ hy hm1 hm2 hd1 hd2,
    strptime_date_dateText y m d _ hy hm1 hm2 hd1 hd2,
    Option.isNone_some, Option.isNone_none, if_true, if_false, Bool.false_eq_true]
  rfl

theorem dateText_ne_nil (y m d : Nat) (rp : List Char) : dateText y m d ++ rp ≠ [] := by
  simp [dateText, pad4]

theorem isoText_ne_nil (y m d h mi s : Nat) : isoText y m d h mi s ≠ [] :=
  dateText_ne_nil y m d _

theorem simpleText_ne_nil (y m d h mi s : Nat) : simpleText y m d h mi s ≠ [] :=
  dateText_ne_nil y m d _

theorem rfcText_ne_nil (w y m d h mi s : Nat) : rfcText w y m d h mi s ≠ [] := by
  obtain ⟨c, rest, e, _, _⟩ := weekdayAbbrev_head w
  simp [rfcText, e]

theorem parse_date_string_of_attempts (text : List Char) (tm : Tm) (hne : text ≠ [])
    (h : parse_attempts text = (some [], tm)) :
    parse_date_string (some text) = timegm tm := by
  unfold parse_date_string
  have hl : ¬ text.length = 0 := by simpa using hne
  simp [hl, h]

/-- C7: for every year `0 .. 9999`, month `1 .. 12`, day `1 .. 31`, hour
`0 .. 23`, minute and second `0 .. 59`, the ISO text `YYYY-MM-DDTHH:MM:SS`, the
RFC-2822 style text `Wkd, DD Mon YYYY HH:MM:SS` (with any weekday name) and
the simple text `YYYY-MM-DD HH:MM:SS` all parse to the UTC epoch seconds of
those fields; and the bare date text `YYYY-MM-DD` parses to the epoch seconds
of that date at 00:00:00. -/
theorem parse_date_string_format_invariance (w y m d h mi s : Nat) (hw : w < 7)
    (hy : y ≤ 9999) (hm1 : 1 ≤ m) (hm2 : m ≤ 12) (hd1 : 1 ≤ d) (hd2 : d ≤ 31) (hh : h ≤ 23)
    (hmi : mi ≤ 59) (hs : s ≤ 59) :
    parse_date_string (some (isoText y m d h mi s)) = utcEpochSeconds y m d h mi s ∧
    parse_date_string (some (rfcText w y m d h mi s)) = utcEpochSeconds y m d h mi s ∧
    parse_date_string (some (simpleText y m d h mi s)) = utcEpochSeconds y m d h mi s ∧
    parse_date_string (some (dateText y m d)) = utcEpochSeconds y m d 0 0 0 := by
  refine ⟨?_, ?_, ?_, ?_⟩
  · rw [parse_date_string_of_attempts _ _ (isoText_ne_nil y m d h mi s)
      (parse_attempts_isoText y m d h mi s hy hm1 hm2 hd1 hd2 hh hmi (by omega))]
    exact timegm_fields _ y m d h mi s hm1 hm2
  · rw [parse_date_string_of_attempts _ _ (rfcText_ne_nil w y m d h mi s)
      (parse_attempts_rfcText w y m d h mi s hw hy hm1 hm2 hd1 hd2 hh hmi (by omega))]
    exact timegm_fields _ y m d h mi s hm1 hm2
  · rw [parse_date_string_of_attempts _ _ (simpleText_ne_nil y m d h mi s)
      (parse_attempts_simpleText y m d h mi s hy hm1 hm2 hd1 hd2 hh hmi (by omega))]
    exact timegm_fields _ y m d h mi s hm1 hm2
  · have hne : dateText y m d ≠ [] := by
      have h0 := dateText_ne_nil y m d []
      rwa [List.append_nil] at h0
    rw [parse_date_string_of_attempts _ _ hne
      (parse_attempts_dateText y m d hy hm1 hm2 hd1 hd2)]
    exact timegm_fields _ y m d 0 0 0 hm1 hm2

theorem utcEpochSeconds_example : utcEpochSeconds 2020 12 25 12 0 0 = 1608897600 := by
  unfold utcEpochSeconds
  rw [daysBeforeYear_closed, daysBeforeYear_1970]
  decide

/-- Witness of C7: the four texts of 2020-12-25 12:00:00 (a Friday) are the
expected strings, the ISO text parses to `1608897600`, and the theorem applies
to them. -/
theorem parse_date_string_format_invariance_witness :
    isoText 2020 12 25 12 0 0 = "2020-12-25T12:00:00".toList ∧
    rfcText 5 2020 12 25 12 0 0 = "Fri, 25 Dec 2020 12:00:00".toList ∧
    simpleText 2020 12 25 12 0 0 = "2020-12-25 12:00:00".toList ∧
    dateText 2020 12 25 = "2020-12-25".toList ∧
    parse_date_string (some (isoText 2020 12 25 12 0 0)) = 1608897600 ∧
    (parse_date_string (some (isoText 2020 12 25 12 0 0)) = utcEpochSeconds 2020 12 25 12 0 0 ∧
      parse_date_string (some (rfcText 5 2020 12 25 12 0 0))
        = utcEpochSeconds 2020 12 25 12 0 0 ∧
      parse_date_string (some (simpleText 2020 12 25 12 0 0))
        = utcEpochSeconds 2020 12 25 12 0 0 ∧
      parse_date_string (some (dateText 2020 12 25)) = utcEpochSeconds 2020 12 25 0 0 0) :=
  ⟨by decide, by decide, by decide, by decide, by decide,
    parse_date_string_format_invariance 5 2020 12 25 12 0 0 (by decide) (by decide) (by decide)
      (by decide) (by decide) (by decide) (by decide) (by decide) (by decide)⟩

end DateUtils
